import Mathlib

/-!
Verification of the task-graph orchestration engine and provisioning state
machine of `servicecatalog_puppet/workflow/launch.py` (plus
`codebuild_runs.py`), shallowly embedded in Lean 4.

Each task `run` method is translated into a pure function from an explicit
input record (the desired state, the queried live state, and the data every
remote read would return) to a trace recording, in order, the client calls the
method would issue, the warnings it would log, and its final outcome
(`Except` models a raised exception; `.ok` models the task writing its
output).  Repository code that is referenced but not present under `src/`
(the `aws` helper module and the `constants` module) is modelled from the
specification; every such definition is marked `Modelled from the spec:` in
its doc comment.
-/

namespace ScPuppet

/-- Python `str(bool)` used when building codebuild environment variables. -/
def pyStr (b : Bool) : String := if b then "True" else "False"

/-- Substring containment test, mirroring Python `pat in s`. -/
def containsSubstr (s pat : String) : Bool :=
  decide (pat.toList <:+: s.toList)

/-- Modelled from the spec: `constants.LAUNCH`, the depends-on type of a launch. -/
def LAUNCH : String := "launch"

/-- Modelled from the spec: `constants.LAUNCHES`, the manifest section name
(the literal `"launches"` also appears directly in `LaunchSectionTask.run`). -/
def LAUNCHES : String := "launches"

/-- Modelled from the spec: `constants.SPOKE_LOCAL_PORTFOLIO` depends-on type. -/
def SPOKE_LOCAL_PORTFOLIO : String := "spoke-local-portfolio"

/-- Modelled from the spec: `constants.ASSERTION` depends-on type. -/
def ASSERTION : String := "assertion"

/-- Modelled from the spec: `constants.CODE_BUILD_RUN` depends-on type. -/
def CODE_BUILD_RUN : String := "code-build-run"

/-- Modelled from the spec: `constants.LAMBDA_INVOCATION` depends-on type. -/
def LAMBDA_INVOCATION : String := "lambda-invocation"

/-- Modelled from the spec: `constants.EXECUTION_MODE_HUB`. -/
def EXECUTION_MODE_HUB : String := "hub"

/-- Modelled from the spec: `constants.EXECUTION_MODE_SPOKE`. -/
def EXECUTION_MODE_SPOKE : String := "spoke"

/-- Modelled from the spec: `constants.CHANGE`, the dry-run diff effect. -/
def CHANGE : String := "CHANGE"

/-- Modelled from the spec: `constants.NO_CHANGE`, the dry-run diff effect. -/
def NO_CHANGE : String := "NO_CHANGE"

/-- Modelled from the spec: `constants.EXECUTION_SPOKE_CODEBUILD_PROJECT_NAME`,
the name of the remote build project triggered for spoke execution. -/
def EXECUTION_SPOKE_CODEBUILD_PROJECT_NAME : String :=
  "servicecatalog-puppet-deploy-in-spoke"

/-- One parameter declared by a provisioning artifact, as returned by
`describe_provisioning_parameters` (`ParameterKey` / `DefaultValue`). -/
structure ProvArtParam where
  parameterKey : String
  defaultValue : Option String
  deriving Repr, DecidableEq

/-- One provisioned-product record as returned by
`scan_provisioned_products_single_page`. -/
structure PPRecord where
  name : String
  id : String
  artifactId : String
  status : String
  deriving Repr, DecidableEq

/-- One CloudFormation stack output (`OutputKey` / `OutputValue`). -/
structure StackOutput where
  outputKey : String
  outputValue : String
  deriving Repr, DecidableEq

/-- One declared SSM output binding from the manifest
(`stack_output` / `param_name` / optional `param_type`). -/
structure SsmParamOutput where
  stackOutput : String
  paramName : String
  paramType : Option String
  deriving Repr, DecidableEq

/-- One `depends_on` edge from the manifest (`type` / `affinity` / `name`). -/
structure DependsOn where
  dtype : String
  affinity : String
  name : String
  deriving Repr, DecidableEq

/-- One launch-path summary from `list_launch_paths`. -/
structure LaunchPathSummary where
  id : String
  name : String
  deriving Repr, DecidableEq

/-- A codebuild environment variable entry (`name` / `value` / `type`). -/
structure EnvVar where
  name : String
  value : String
  vtype : String
  deriving Repr, DecidableEq

/-- The triple computed by scanning the live provisioned products:
`(provisioned_product_id, provisioning_artifact_id, current_status)`.
`none` models the Python falsy initial values. -/
structure LiveState where
  ppId : Option String
  artifactId : Option String
  status : String
  deriving Repr, DecidableEq

/-- Every client call the embedded task bodies can issue, reads included. -/
inductive ApiCall where
  | scanProvisionedProducts
  | describeStacksParameters (stackName : String)
  | describeStacks (stackName : String)
  | describeProvisioningArtifact (artifactId : String) (productId : String)
  | listLaunchPaths (productId : String)
  | terminateProvisionedProduct (ppId : String)
  | provisionProduct (params : List (String × Option String))
  | updateProvisionedProduct (params : List (String × Option String))
  | provisionProductWithPlan (pathId : String) (params : List (String × Option String))
  | ssmPutParameter (name : String) (value : String) (ptype : String) (overwrite : Bool)
  | ssmDeleteParameter (name : String)
  | ssmGetParameter (name : String)
  | s3PutObject (bucket : String) (key : String) (body : String)
  | s3GeneratePresignedUrl (bucket : String) (key : String) (expiresIn : Nat)
  | codebuildStartBuild (projectName : String) (env : List EnvVar)
  | codebuildStartBuildAndWait (projectName : String) (env : List EnvVar)
  deriving Repr, DecidableEq

/-- Calls that mutate remote state (as opposed to pure reads). -/
def ApiCall.isMutating : ApiCall → Bool
  | .scanProvisionedProducts => false
  | .describeStacksParameters _ => false
  | .describeStacks _ => false
  | .describeProvisioningArtifact _ _ => false
  | .listLaunchPaths _ => false
  | .ssmGetParameter _ => false
  | .s3GeneratePresignedUrl _ _ _ => false
  | .terminateProvisionedProduct _ => true
  | .provisionProduct _ => true
  | .updateProvisionedProduct _ => true
  | .provisionProductWithPlan _ _ => true
  | .ssmPutParameter _ _ _ _ => true
  | .ssmDeleteParameter _ => true
  | .s3PutObject _ _ _ => true
  | .codebuildStartBuild _ _ => true
  | .codebuildStartBuildAndWait _ _ => true

/-- Calls that mutate the provisioned resource itself
(provision, update, plan execution, terminate). -/
def ApiCall.isProvisioningMutation : ApiCall → Bool
  | .terminateProvisionedProduct _ => true
  | .provisionProduct _ => true
  | .updateProvisionedProduct _ => true
  | .provisionProductWithPlan _ _ => true
  | _ => false

/-- Parameter map carried by a provision / update / plan call, if any. -/
def ApiCall.mutParams : ApiCall → Option (List (String × Option String))
  | .provisionProduct ps => some ps
  | .updateProvisionedProduct ps => some ps
  | .provisionProductWithPlan _ ps => some ps
  | _ => none

/-- True when the call is an SSM parameter put. -/
def ApiCall.isSsmPut : ApiCall → Bool
  | .ssmPutParameter _ _ _ _ => true
  | _ => false

/-- True when the call is an SSM parameter put with the given name. -/
def ApiCall.isPutNamed (c : ApiCall) (n : String) : Bool :=
  match c with
  | .ssmPutParameter m _ _ _ => m == n
  | _ => false

/-- Overwrite flag of an SSM put (`true` for every non-put call so that
the universally quantified statement only constrains puts). -/
def ApiCall.putOverwrite : ApiCall → Bool
  | .ssmPutParameter _ _ _ ow => ow
  | _ => true

/-- True when the call is `start_build_and_wait_for_completion`. -/
def ApiCall.isStartBuildAndWait : ApiCall → Bool
  | .codebuildStartBuildAndWait _ _ => true
  | _ => false

/-- Lookup in an association list, mirroring Python `dict.get(k)`. -/
def lookupD {α : Type} (d : List (String × α)) (k : String) : Option α :=
  (d.find? (fun q => q.1 == k)).map (fun q => q.2)

/-- Assignment `d[k] = v` on an insertion-ordered association list, mirroring
Python dict semantics: an existing key is overwritten in place, a new key is
appended. -/
def dictInsert {α : Type} (d : List (String × α)) (k : String) (v : α) :
    List (String × α) :=
  if d.any (fun q => q.1 == k) then
    d.map (fun q => if q.1 == k then (k, v) else q)
  else d ++ [(k, v)]

/-- Python `dict == dict`: order-insensitive equality of key/value maps. -/
def dictEq (a b : List (String × Option String)) : Bool :=
  a.all (fun q => lookupD b q.1 == some q.2) &&
    b.all (fun q => lookupD a q.1 == some q.2)

/-- Loop body of the parameter-resolution `for` loop of
`ProvisionProductTask.run`, lines 394-398, threading the dict being built. -/
def paramsToUseAux (allParams : List (String × String)) :
    List ProvArtParam → List (String × Option String) → List (String × Option String)
  | [], acc => acc
  | p :: rest, acc =>
    paramsToUseAux allParams rest
      (dictInsert acc p.parameterKey ((lookupD allParams p.parameterKey) <|> p.defaultValue))

/-- Resolved parameter map of `ProvisionProductTask.run` (and its dry-run
twin), lines 393-398 and 622-627: for each parameter declared by the target
provisioning artifact, take the supplied value if present, else the
artifact's default; keys not declared by the artifact never enter the map. -/
def paramsToUse (artifactParams : List ProvArtParam)
    (allParams : List (String × String)) : List (String × Option String) :=
  paramsToUseAux allParams artifactParams []

/-- Left-to-right non-overlapping replacement on character lists, mirroring
Python `str.replace`; the fuel argument (instantiated with the input length)
keeps the recursion structural. -/
def replaceCharsFuel : Nat → List Char → List Char → List Char → List Char
  | 0, s, _, _ => s
  | _ + 1, [], _, _ => []
  | fuel + 1, c :: rest, pat, rep =>
    if pat.isPrefixOf (c :: rest) && !pat.isEmpty then
      rep ++ replaceCharsFuel fuel ((c :: rest).drop pat.length) pat rep
    else c :: replaceCharsFuel fuel rest pat rep

/-- String replacement mirroring Python `str.replace` for non-empty patterns. -/
def pyReplace (s pat rep : String) : String :=
  String.mk (replaceCharsFuel s.length s.data pat.data rep.data)

/-- Token substitution applied to an SSM output binding's target parameter
name before writing it (lines 520-528). -/
def substituteTokens (paramName region accountId : String) : String :=
  pyReplace (pyReplace paramName "${AWS::Region}" region) "${AWS::AccountId}" accountId

/-- Modelled from the spec: `aws.terminate_if_status_is_not_available` (the
`aws` module is not under `src/`).  Spec, section 4.3 step 1: when a prior
provisioned resource exists but is not in an available-like status it is
terminated first; the surviving statuses are exactly the ones under which the
engine keeps the resource (AVAILABLE and, per step 3 and the dry-run scan in
`ProvisionProductDryRunTask.run` lines 590-592, TAINTED).  Returns the
queried live state plus the calls issued. -/
def terminateIfStatusIsNotAvailable (pps : List PPRecord) (launchName : String) :
    LiveState × List ApiCall :=
  match pps.find? (fun r => r.name == launchName) with
  | none => (⟨none, none, "NOT_PROVISIONED"⟩, [.scanProvisionedProducts])
  | some r =>
    if r.status == "AVAILABLE" || r.status == "TAINTED" then
      (⟨some r.id, some r.artifactId, r.status⟩, [.scanProvisionedProducts])
    else
      (⟨none, none, r.status⟩,
        [.scanProvisionedProducts, .terminateProvisionedProduct r.id])

/-- The live state as queried (and self-healed) at the start of
`ProvisionProductTask.run`, lines 366-376. -/
def liveStateOf (pps : List PPRecord) (launchName : String) : LiveState :=
  (terminateIfStatusIsNotAvailable pps launchName).1

/-- The SSM output loop of `ProvisionProductTask.run`, lines 509-542: for
each declared binding, one put per stack output whose key equals the
binding's `stack_output` (name token-substituted, `Overwrite=True`); when no
output matches, the exception of line 540 is raised and later bindings are
not processed.  Returns the puts issued before any failure, and the failure
message if one was raised. -/
def processSsmOutputs (bindings : List SsmParamOutput) (outputs : List StackOutput)
    (region accountId uid : String) : List ApiCall × Option String :=
  match bindings with
  | [] => ([], none)
  | b :: rest =>
    let ms := outputs.filter (fun o => o.outputKey == b.stackOutput)
    let puts := ms.map (fun o =>
      ApiCall.ssmPutParameter (substituteTokens b.paramName region accountId)
        o.outputValue (b.paramType.getD "String") true)
    if ms.isEmpty then
      (puts, some s!"[{uid}] Could not find match for {b.stackOutput}")
    else
      let rec2 := processSsmOutputs rest outputs region accountId uid
      (puts ++ rec2.1, rec2.2)

/-- Everything `ProvisionProductTask.run` reads: the task parameters, the
values its dependency inputs carry, and the data each remote read returns. -/
structure ProvisionInput where
  launchName : String
  accountId : String
  region : String
  portfolio : String
  version : String
  puppetAccountId : String
  execution : String
  uid : String
  shouldUseProductPlans : Bool
  ssmParamOutputs : List SsmParamOutput
  productId : String
  versionId : String
  artifactParams : List ProvArtParam
  allParams : List (String × String)
  provisionedProducts : List PPRecord
  stackParameters : List (String × Option String)
  stackStatus : String
  stackOutputs : List StackOutput
  pathId : String
  newProvisionedProductId : String
  deriving Repr, DecidableEq

/-- The `need_to_provision` flag as computed by lines 382-419: `True` unless
the live provisioning-artifact id equals the desired version id, a live
resource exists, and the live stack parameters equal the resolved map; a
TAINTED live status forces it back to `True`. -/
def needToProvisionOf (i : ProvisionInput) : Bool :=
  let ls := liveStateOf i.provisionedProducts i.launchName
  let base :=
    if ls.artifactId == some i.versionId && ls.ppId.isSome then
      !(dictEq i.stackParameters (paramsToUse i.artifactParams i.allParams))
    else true
  base || (ls.status == "TAINTED")

/-- The comparison of lines 400-417: when the live artifact id equals the
desired version id and a live resource exists, the resolved map that is
compared against the live stack parameters; `none` when no comparison runs. -/
def comparedOf (i : ProvisionInput) : Option (List (String × Option String)) :=
  let ls := liveStateOf i.provisionedProducts i.launchName
  if ls.artifactId == some i.versionId && ls.ppId.isSome then
    some (paramsToUse i.artifactParams i.allParams)
  else none

/-- Calls issued by the comparison of lines 400-417
(`aws.get_parameters_for_stack` is a `describe_stacks` read). -/
def compareCallsOf (i : ProvisionInput) : List ApiCall :=
  let ls := liveStateOf i.provisionedProducts i.launchName
  match comparedOf i, ls.ppId with
  | some _, some ppid => [.describeStacksParameters s!"SC-{i.accountId}-{ppid}"]
  | _, _ => []

/-- Statuses accepted by the pre-update health gate, lines 433-437. -/
def healthyStackStatuses : List String :=
  ["UPDATE_COMPLETE", "CREATE_COMPLETE", "UPDATE_ROLLBACK_COMPLETE"]

/-- The mutation section of `ProvisionProductTask.run`, lines 421-494: when
provisioning is needed and a live resource exists, gate on the stack status
(warning on UPDATE_ROLLBACK_COMPLETE, exception otherwise), then either the
plan path or the direct update; with no live resource, a direct provision.
Returns calls issued, warnings logged, and the resulting provisioned-product
id or the raised exception. -/
def provisionMutationSection (i : ProvisionInput) (need : Bool) (ppId : Option String)
    (ptu : List (String × Option String)) :
    List ApiCall × List String × Except String (Option String) :=
  if need then
    match ppId with
    | some ppid =>
      let rd : List ApiCall := [.describeStacks s!"SC-{i.accountId}-{ppid}"]
      if healthyStackStatuses.contains i.stackStatus then
        let w :=
          if i.stackStatus == "UPDATE_ROLLBACK_COMPLETE" then
            [s!"[{i.uid}] SC-{i.accountId}-{ppid} has a status of {i.stackStatus}.  This may need manual resolution."]
          else []
        if i.shouldUseProductPlans then
          (rd ++ [.listLaunchPaths i.productId, .provisionProductWithPlan i.pathId ptu],
            w, .ok (some i.newProvisionedProductId))
        else
          (rd ++ [.updateProvisionedProduct ptu], w, .ok (some i.newProvisionedProductId))
      else
        (rd, [], .error s!"[{i.uid}] current cfn stack_status is {i.stackStatus}")
    | none => ([.provisionProduct ptu], [], .ok (some i.newProvisionedProductId))
  else ([], [], .ok ppId)

/-- Trace of one `ProvisionProductTask.run` invocation. -/
structure RunTrace where
  calls : List ApiCall
  warnings : List String
  needToProvision : Bool
  compared : Option (List (String × Option String))
  result : Except String (Option String)
  deriving Repr

/-- Embedding of `ProvisionProductTask.run` (lines 349-547): query and self-heal the live
state, resolve the parameter map, decide `need_to_provision`, run the
mutation section, then in hub execution mode read the stack outputs and
write every declared SSM output binding before writing the task output. -/
def provisionProductRun (i : ProvisionInput) : RunTrace :=
  let scanned := terminateIfStatusIsNotAvailable i.provisionedProducts i.launchName
  let ls := scanned.1
  let preCalls := scanned.2
  let ptu := paramsToUse i.artifactParams i.allParams
  let need := needToProvisionOf i
  let mutated := provisionMutationSection i need ls.ppId ptu
  let mutCalls := mutated.1
  let mutWarnings := mutated.2.1
  match mutated.2.2 with
  | .error e =>
    ⟨preCalls ++ compareCallsOf i ++ mutCalls, mutWarnings, need, comparedOf i, .error e⟩
  | .ok fpp =>
    if i.execution == EXECUTION_MODE_HUB then
      let fppStr := fpp.getD ""
      let hubRead : List ApiCall := [.describeStacks s!"SC-{i.accountId}-{fppStr}"]
      let processed := processSsmOutputs i.ssmParamOutputs i.stackOutputs i.region i.accountId i.uid
      match processed.2 with
      | some e =>
        ⟨preCalls ++ compareCallsOf i ++ mutCalls ++ hubRead ++ processed.1,
          mutWarnings, need, comparedOf i, .error e⟩
      | none =>
        ⟨preCalls ++ compareCallsOf i ++ mutCalls ++ hubRead ++ processed.1,
          mutWarnings, need, comparedOf i, .ok fpp⟩
    else
      ⟨preCalls ++ compareCallsOf i ++ mutCalls, mutWarnings, need, comparedOf i, .ok fpp⟩

/-- The dry-run diff record written by
`ProvisionProductDryRunTask.write_result` (lines 682-700). -/
structure DiffResult where
  currentVersion : String
  newVersion : String
  effect : String
  currentStatus : String
  active : String
  notes : String
  deriving Repr, DecidableEq

/-- Everything `ProvisionProductDryRunTask.run` reads. -/
structure DryRunInput where
  launchName : String
  accountId : String
  region : String
  version : String
  versionId : String
  productId : String
  artifactParams : List ProvArtParam
  allParams : List (String × String)
  provisionedProducts : List PPRecord
  stackParameters : List (String × Option String)
  currentVersionName : String
  currentVersionActive : Bool
  deriving Repr, DecidableEq

/-- The scan loop of `ProvisionProductDryRunTask.run`, lines 584-592: walk
every scanned record; a record matching the launch name always updates the
current status, and sets the ids only when the status is AVAILABLE or
TAINTED (ids set earlier are kept otherwise). -/
def dryRunScanAux (launchName : String) : List PPRecord → LiveState → LiveState
  | [], acc => acc
  | r :: rest, acc =>
    dryRunScanAux launchName rest
      (if r.name == launchName then
        if r.status == "AVAILABLE" || r.status == "TAINTED" then
          ⟨some r.id, some r.artifactId, r.status⟩
        else ⟨acc.ppId, acc.artifactId, r.status⟩
      else acc)

/-- Scan entry point of `ProvisionProductDryRunTask.run` with the Python
initial values (`False`, `None`, `"NOT_PROVISIONED"`). -/
def dryRunScan (pps : List PPRecord) (launchName : String) : LiveState :=
  dryRunScanAux launchName pps ⟨none, none, "NOT_PROVISIONED"⟩

/-- Trace of one `ProvisionProductDryRunTask.run` invocation: the calls
issued and the diff result written (`none` when no `write_result` ran). -/
structure DryRunTrace where
  calls : List ApiCall
  written : Option DiffResult
  deriving Repr, DecidableEq

/-- Embedding of `ProvisionProductDryRunTask.run` (lines 568-673): scan the live
provisioned products, then classify into a diff result: no live artifact id
means a new provision (CHANGE); same artifact id compares the live stack
parameters against the resolved map (NO_CHANGE when equal, CHANGE
otherwise); a different artifact id is a version change (CHANGE). -/
def provisionProductDryRunRun (i : DryRunInput) : DryRunTrace :=
  let ls := dryRunScan i.provisionedProducts i.launchName
  match ls.artifactId with
  | none =>
    ⟨[.scanProvisionedProducts],
      some ⟨"-", i.version, CHANGE, "NOT_PROVISIONED", "N/A", "New provisioning"⟩⟩
  | some paid =>
    let calls1 : List ApiCall :=
      [.scanProvisionedProducts, .describeProvisioningArtifact paid i.productId]
    let ptu := paramsToUse i.artifactParams i.allParams
    if paid == i.versionId then
      match ls.ppId with
      | some ppid =>
        let calls2 := calls1 ++ [.describeStacksParameters s!"SC-{i.accountId}-{ppid}"]
        if dictEq i.stackParameters ptu then
          ⟨calls2,
            some ⟨i.version, i.version, NO_CHANGE, ls.status,
              pyStr i.currentVersionActive, "Versions and params are the same"⟩⟩
        else
          ⟨calls2,
            some ⟨i.version, i.version, CHANGE, ls.status,
              pyStr i.currentVersionActive, "Versions are the same but the params are different"⟩⟩
      | none => ⟨calls1, none⟩
    else
      ⟨calls1,
        some ⟨i.currentVersionName, i.version, CHANGE, ls.status,
          pyStr i.currentVersionActive, "Version change"⟩⟩

/-- Outcome of one `describe_provisioning_parameters` attempt. -/
inductive DescribeOutcome where
  | ok (params : List ProvArtParam)
  | clientErr (msg : String)
  | otherErr (msg : String)
  deriving Repr, DecidableEq

/-- The transiency test of line 246: Python `"S3 error: Access Denied" in str(ex)`. -/
def isTransientS3Error (msg : String) : Bool :=
  containsSubstr msg "S3 error: Access Denied"

/-- Trace of one `DoDescribeProvisioningParameters.run` invocation:
`attempts` counts `describe_provisioning_parameters` calls, `sleeps` the
`time.sleep(3)` backoffs; `.ok ps` models `write_output` of the list whose
entries mirror Python values (`none` is Python `None`, so the exhausted loop
writes `[none]`), `.error` models an uncaught exception. -/
structure DescribeTrace where
  attempts : Nat
  sleeps : Nat
  result : Except String (List (Option ProvArtParam))
  deriving Repr

/-- The retry loop of `DoDescribeProvisioningParameters.run`, lines 232-251:
while retries remain, attempt the call; success breaks out; a client error
containing the transient marker is swallowed, slept on, and retried; any
other error propagates; when retries run out the loop exits with the result
still `None`. -/
def describeLoop (outcome : Nat → DescribeOutcome) :
    Nat → Nat → Nat → DescribeTrace
  | 0, attempt, sleeps => ⟨attempt, sleeps, .ok [none]⟩
  | r + 1, attempt, sleeps =>
    match outcome attempt with
    | .ok ps => ⟨attempt + 1, sleeps, .ok (ps.map some)⟩
    | .clientErr m =>
      if isTransientS3Error m then describeLoop outcome r (attempt + 1) (sleeps + 1)
      else ⟨attempt + 1, sleeps, .error m⟩
    | .otherErr m => ⟨attempt + 1, sleeps, .error m⟩

/-- Embedding of `DoDescribeProvisioningParameters.run` (lines 229-257): the retry loop
started with `retries = 3`, followed by `write_output`. -/
def doDescribeProvisioningParametersRun (outcome : Nat → DescribeOutcome) :
    DescribeTrace :=
  describeLoop outcome 3 0 0

/-- Modelled from the spec: `aws.ensure_is_terminated` (the `aws` module is
not under `src/`).  Spec, section 4.3: ensure-terminated is idempotent — an
already-terminated or absent resource is a success with no terminate call;
otherwise the resource is terminated.  Returns the ids found plus the calls
issued. -/
def ensureIsTerminated (pps : List PPRecord) (launchName : String) :
    (Option String × Option String) × List ApiCall :=
  match pps.find? (fun r => r.name == launchName) with
  | none => ((none, none), [.scanProvisionedProducts])
  | some r =>
    if r.status == "TERMINATED" then
      ((some r.id, some r.artifactId), [.scanProvisionedProducts])
    else
      ((some r.id, some r.artifactId),
        [.scanProvisionedProducts, .terminateProvisionedProduct r.id])

/-- Everything `DoTerminateProductTask.run` reads. -/
structure TerminateInput where
  launchName : String
  accountId : String
  region : String
  productId : String
  ssmParamOutputs : List SsmParamOutput
  provisionedProducts : List PPRecord
  existingSsmParams : List String
  deriving Repr, DecidableEq

/-- Trace of one `DoTerminateProductTask.run` invocation:
`notFoundSwallowed` lists the parameter names whose delete raised
`ParameterNotFound` and was caught (lines 855-858). -/
structure TerminateTrace where
  calls : List ApiCall
  notFoundSwallowed : List String
  result : Except String (Option String)
  deriving Repr

/-- Embedding of `DoTerminateProductTask.run` (lines 826-865): ensure the product is
terminated, then for each declared SSM output binding delete its parameter by
the binding's raw `param_name`; a `ParameterNotFound` from the delete is
caught and logged, and the task output is then written. -/
def doTerminateProductRun (i : TerminateInput) : TerminateTrace :=
  let ensured := ensureIsTerminated i.provisionedProducts i.launchName
  let deletes := i.ssmParamOutputs.map (fun b => ApiCall.ssmDeleteParameter b.paramName)
  let notFound :=
    (i.ssmParamOutputs.filter (fun b => !(i.existingSsmParams.contains b.paramName))).map
      (fun b => b.paramName)
  ⟨ensured.2 ++ deletes, notFound, .ok ensured.1.1⟩

/-- Everything `RunDeployInSpokeTask.run` reads (`config.get_*` accessors and
remote reads are supplied as input fields). -/
structure SpokeDeployInput where
  puppetAccountId : String
  accountId : String
  homeRegion : String
  regions : List String
  shouldUseSns : Bool
  shouldUseEventbridge : Bool
  shouldForwardFailuresToOpscenter : Bool
  newManifestContent : String
  codebuildBuildNumber : Option String
  versionParamValue : String
  presignedUrl : String
  deriving Repr, DecidableEq

/-- Trace of one `RunDeployInSpokeTask.run` invocation. -/
structure SpokeDeployTrace where
  calls : List ApiCall
  outputWritten : Bool
  deriving Repr, DecidableEq

/-- The environment variables passed to `start_build` by
`RunDeployInSpokeTask.run`, lines 1021-1050: flat string name/value pairs of
type PLAINTEXT. -/
def runDeployInSpokeEnv (i : SpokeDeployInput) (signedUrl version : String) :
    List EnvVar :=
  [⟨"VERSION", version, "PLAINTEXT"⟩,
   ⟨"MANIFEST_URL", signedUrl, "PLAINTEXT"⟩,
   ⟨"PUPPET_ACCOUNT_ID", i.puppetAccountId, "PLAINTEXT"⟩,
   ⟨"HOME_REGION", i.homeRegion, "PLAINTEXT"⟩,
   ⟨"REGIONS", String.intercalate "," i.regions, "PLAINTEXT"⟩,
   ⟨"SHOULD_COLLECT_CLOUDFORMATION_EVENTS", pyStr i.shouldUseSns, "PLAINTEXT"⟩,
   ⟨"SHOULD_FORWARD_EVENTS_TO_EVENTBRIDGE", pyStr i.shouldUseEventbridge, "PLAINTEXT"⟩,
   ⟨"SHOULD_FORWARD_FAILURES_TO_OPSCENTER", pyStr i.shouldForwardFailuresToOpscenter, "PLAINTEXT"⟩]

/-- Embedding of `RunDeployInSpokeTask.run` (lines 991-1052): upload the generated
manifest to the spoke-deploy bucket, create a presigned retrieval URL valid
for 24 hours, read the installed version from SSM, call `start_build` on the
spoke codebuild project with the run-context environment, and write the task
output (the dict of account id and the `start_build` response). -/
def runDeployInSpokeRun (i : SpokeDeployInput) : SpokeDeployTrace :=
  let bucket := "sc-puppet-spoke-deploy-" ++ i.puppetAccountId
  let key := (i.codebuildBuildNumber.getD "0") ++ ".yaml"
  let env := runDeployInSpokeEnv i i.presignedUrl i.versionParamValue
  ⟨[.s3PutObject bucket key i.newManifestContent,
    .s3GeneratePresignedUrl bucket key (60 * 60 * 24),
    .ssmGetParameter "service-catalog-puppet-version",
    .codebuildStartBuild EXECUTION_SPOKE_CODEBUILD_PROJECT_NAME env],
   true⟩

/-- Dependency task nodes produced by the `requires` methods. -/
inductive TaskRef where
  | launchForSpokeExecution (launchName : String)
  | launchTask (launchName : String)
  | spokeLocalPortfolio (name : String)
  | assertionTask (name : String)
  | codeBuildRun (name : String)
  | lambdaInvocation (name : String)
  | sameRegionLaunch (launchName : String) (region : String)
  deriving Repr, DecidableEq

/-- One iteration of the `depends_on` loop of
`LaunchForSpokeExecutionTask.requires` (lines 1078-1149): for each supported
type, an edge whose affinity equals its type adds the corresponding
dependency task (a launch edge branches on the depended-upon launch's
execution mode), and any other affinity raises; edges of an unrecognized
type are skipped.  The manifest is supplied as a map from launch name to
execution mode; a launch edge naming an unknown launch is an unresolved
depends-on target (spec, section 7). -/
def spokeRequiresStep (manifest : List (String × String))
    (acc : List TaskRef) (d : DependsOn) : Except String (List TaskRef) :=
  (if d.dtype == LAUNCH then
        if d.affinity == LAUNCH then
          match lookupD manifest d.name with
          | some ex =>
            if ex == EXECUTION_MODE_SPOKE then
              .ok (acc ++ [TaskRef.launchForSpokeExecution d.name])
            else .ok (acc ++ [TaskRef.launchTask d.name])
          | none => .error s!"unresolved depends_on target {d.name}"
        else
          .error "Could can only depend on a launch using affinity launch when using spoke execution mode"
      else if d.dtype == SPOKE_LOCAL_PORTFOLIO then
        if d.affinity == SPOKE_LOCAL_PORTFOLIO then
          .ok (acc ++ [TaskRef.spokeLocalPortfolio d.name])
        else
          .error "Could can only depend on a spoke_local_portfolio using affinity spoke_local_portfolios when using spoke execution mode"
      else if d.dtype == ASSERTION then
        if d.affinity == ASSERTION then
          .ok (acc ++ [TaskRef.assertionTask d.name])
        else
          .error "Could can only depend on an assertion using affinity assertion when using spoke execution mode"
      else if d.dtype == CODE_BUILD_RUN then
        if d.affinity == CODE_BUILD_RUN then
          .ok (acc ++ [TaskRef.codeBuildRun d.name])
        else
          .error "Could can only depend on a code_build_run using affinity code_build_run when using spoke execution mode"
      else if d.dtype == LAMBDA_INVOCATION then
        if d.affinity == LAMBDA_INVOCATION then
          .ok (acc ++ [TaskRef.lambdaInvocation d.name])
        else
          .error "Could can only depend on a lambda_invocation using affinity lambda_invocation when using spoke execution mode"
      else .ok acc : Except String (List TaskRef))

/-- Sequential processing of the `depends_on` loop of
`LaunchForSpokeExecutionTask.requires`: the first raising edge aborts the
whole method. -/
def spokeRequiresLoop (manifest : List (String × String)) :
    List DependsOn → List TaskRef → Except String (List TaskRef)
  | [], acc => .ok acc
  | d :: rest, acc =>
    match spokeRequiresStep manifest acc d with
    | .ok acc2 => spokeRequiresLoop manifest rest acc2
    | .error e => .error e

/-- Embedding of `LaunchForSpokeExecutionTask.requires` as a whole: the loop started from
an empty dependency list. -/
def launchForSpokeExecutionRequires (manifest : List (String × String))
    (deps : List DependsOn) : Except String (List TaskRef) :=
  spokeRequiresLoop manifest deps []

/-- Embedding of `LaunchForRegionTask.requires` (lines 1216-1249): the per-region
expansion tasks (supplied by the manifest accessor) plus, for each
`depends_on` edge whose type equals the section name and whose affinity is
`"region"`, a same-region dependency on the named launch.  The method is
total — no edge combination raises. -/
def launchForRegionTaskRequires (expansionTasks : List TaskRef)
    (deps : List DependsOn) (region : String) : List TaskRef × List TaskRef :=
  (expansionTasks,
    (deps.filter (fun d => d.dtype == LAUNCHES && d.affinity == "region")).map
      (fun d => TaskRef.sameRegionLaunch d.name region))

/-- Embedding of `ListLaunchPathsTask.run` (lines 122-139): when exactly one launch path
summary is returned it is written as the output; otherwise every summary
whose name equals the portfolio is written; in every case the method then
falls through to the unconditional `raise` of line 139.  Returns the
summaries written and the raised exception. -/
def listLaunchPathsRun (summaries : List LaunchPathSummary) (portfolio : String) :
    List LaunchPathSummary × Except String Unit :=
  match summaries with
  | [s] => ([s], .error "Could not find a launch path")
  | _ =>
    (summaries.filter (fun s => s.name == portfolio),
      .error "Could not find a launch path")

/-! Helper lemmas about the Python-dict model. -/

theorem lookupD_overwrite_of_any {α : Type} (d : List (String × α)) (k : String) (v : α)
    (hany : d.any (fun q => q.1 == k) = true) :
    lookupD (d.map (fun q => if q.1 == k then (k, v) else q)) k = some v := by
  induction d with
  | nil => simp at hany
  | cons q rest ih =>
    by_cases hq : (q.1 == k) = true
    · simp [lookupD, List.find?, hq]
    · simp only [List.any_cons, hq, Bool.false_or] at hany
      simpa [lookupD, List.find?, hq] using ih hany

theorem lookupD_overwrite_of_ne {α : Type} (d : List (String × α)) (k k2 : String)
    (v : α) (hne : k2 ≠ k) :
    lookupD (d.map (fun q => if q.1 == k then (k, v) else q)) k2 = lookupD d k2 := by
  induction d with
  | nil => rfl
  | cons q rest ih =>
    by_cases hq : (q.1 == k) = true
    · have hqk : q.1 = k := by simpa using hq
      have h1 : (k == k2) = false := by simpa using (Ne.symm hne)
      have h2 : (q.1 == k2) = false := by
        rw [hqk]; simpa using (Ne.symm hne)
      simpa [lookupD, List.find?, hq, h1, h2] using ih
    · by_cases hq2 : (q.1 == k2) = true
      · simp [lookupD, List.find?, hq, hq2]
      · simpa [lookupD, List.find?, hq, hq2] using ih

theorem lookupD_dictInsert_self {α : Type} (d : List (String × α)) (k : String) (v : α) :
    lookupD (dictInsert d k v) k = some v := by
  unfold dictInsert
  by_cases hany : d.any (fun q => q.1 == k) = true
  · simpa [hany] using lookupD_overwrite_of_any d k v hany
  · simp only [hany, if_false]
    have hnone : d.find? (fun q => q.1 == k) = none := by
      rw [List.find?_eq_none]
      intro q hq hqk
      exact hany (List.any_eq_true.mpr ⟨q, hq, hqk⟩)
    simp [lookupD, List.find?_append, hnone, List.find?]

theorem lookupD_dictInsert_other {α : Type} (d : List (String × α)) (k k2 : String)
    (v : α) (hne : k2 ≠ k) :
    lookupD (dictInsert d k v) k2 = lookupD d k2 := by
  unfold dictInsert
  by_cases hany : d.any (fun q => q.1 == k) = true
  · simpa [hany] using lookupD_overwrite_of_ne d k k2 v hne
  · simp only [hany, if_false]
    have h1 : ((k, v).1 == k2) = false := by simpa using (Ne.symm hne)
    cases hfind : d.find? (fun q => q.1 == k2) with
    | none => simp [lookupD, List.find?_append, hfind, List.find?, h1]
    | some q => simp [lookupD, List.find?_append, hfind]

theorem anyKey_overwrite {α : Type} (d : List (String × α)) (k k2 : String) (v : α) :
    (d.map (fun q => if q.1 == k then (k, v) else q)).any (fun q => q.1 == k2) =
      d.any (fun q => q.1 == k2) := by
  induction d with
  | nil => rfl
  | cons q rest ih =>
    simp only [List.map_cons, List.any_cons]
    by_cases hq : (q.1 == k) = true
    · have hqk : q.1 = k := by simpa using hq
      rw [if_pos hq, ih, hqk]
    · rw [if_neg hq, ih]

theorem anyKey_dictInsert {α : Type} (d : List (String × α)) (k k2 : String) (v : α) :
    (dictInsert d k v).any (fun q => q.1 == k2) =
      (d.any (fun q => q.1 == k2) || (k == k2)) := by
  unfold dictInsert
  by_cases hany : d.any (fun q => q.1 == k) = true
  · simp only [hany, if_true, anyKey_overwrite]
    by_cases hkk : (k == k2) = true
    · have hk : k = k2 := by simpa using hkk
      subst hk
      simp [hany, hkk]
    · simp [hkk]
  · simp [hany, List.any_append, List.any_cons]

/-! Helper lemmas about the resolved parameter map. -/

theorem paramsToUseAux_anyKey (sup : List (String × String)) (ap : List ProvArtParam)
    (acc : List (String × Option String)) (k : String) :
    (paramsToUseAux sup ap acc).any (fun q => q.1 == k) =
      (acc.any (fun q => q.1 == k) || ap.any (fun p => p.parameterKey == k)) := by
  induction ap generalizing acc with
  | nil => simp [paramsToUseAux]
  | cons p rest ih =>
    simp only [paramsToUseAux, List.any_cons]
    rw [ih, anyKey_dictInsert, Bool.or_assoc]

theorem paramsToUse_anyKey (ap : List ProvArtParam) (sup : List (String × String))
    (k : String) :
    (paramsToUse ap sup).any (fun q => q.1 == k) =
      ap.any (fun p => p.parameterKey == k) := by
  simpa [paramsToUse] using paramsToUseAux_anyKey sup ap [] k

theorem paramsToUseAux_lookup_of_not_mem (sup : List (String × String))
    (ap : List ProvArtParam) (acc : List (String × Option String)) (k : String)
    (h : ∀ p ∈ ap, p.parameterKey ≠ k) :
    lookupD (paramsToUseAux sup ap acc) k = lookupD acc k := by
  induction ap generalizing acc with
  | nil => rfl
  | cons p rest ih =>
    simp only [paramsToUseAux]
    rw [ih _ (fun p2 hp2 => h p2 (List.mem_cons_of_mem _ hp2))]
    exact lookupD_dictInsert_other _ _ _ _
      (fun hk => h p (List.mem_cons_self _ _) hk.symm)

theorem paramsToUseAux_lookup_nodup (sup : List (String × String))
    (ap : List ProvArtParam) (acc : List (String × Option String)) (p : ProvArtParam)
    (hnd : (ap.map (fun p2 => p2.parameterKey)).Nodup) (hp : p ∈ ap) :
    lookupD (paramsToUseAux sup ap acc) p.parameterKey =
      some ((lookupD sup p.parameterKey) <|> p.defaultValue) := by
  induction ap generalizing acc with
  | nil => cases hp
  | cons q rest ih =>
    simp only [List.map_cons] at hnd
    have hnd2 := List.nodup_cons.mp hnd
    simp only [paramsToUseAux]
    rcases List.mem_cons.mp hp with rfl | hp2
    · have hnot : ∀ p2 ∈ rest, p2.parameterKey ≠ p.parameterKey := by
        intro p2 hp2 hk
        exact hnd2.1 (List.mem_map.mpr ⟨p2, hp2, hk⟩)
      rw [paramsToUseAux_lookup_of_not_mem sup rest _ _ hnot]
      exact lookupD_dictInsert_self _ _ _
    · exact ih _ hnd2.2 hp2

theorem paramsToUse_lookup_declared (ap : List ProvArtParam)
    (sup : List (String × String)) (p : ProvArtParam)
    (hnd : (ap.map (fun p2 => p2.parameterKey)).Nodup) (hp : p ∈ ap) :
    lookupD (paramsToUse ap sup) p.parameterKey =
      some ((lookupD sup p.parameterKey) <|> p.defaultValue) :=
  paramsToUseAux_lookup_nodup sup ap [] p hnd hp

theorem paramsToUse_lookup_undeclared (ap : List ProvArtParam)
    (sup : List (String × String)) (k : String)
    (h : ∀ p ∈ ap, p.parameterKey ≠ k) :
    lookupD (paramsToUse ap sup) k = none := by
  rw [paramsToUse, paramsToUseAux_lookup_of_not_mem sup ap [] k h]
  rfl

/-! Helper lemmas about the SSM output-binding loop. -/

/-- The put call the source issues for a binding and a matching output. -/
def putCallFor (region accountId : String) (b : SsmParamOutput) (o : StackOutput) :
    ApiCall :=
  ApiCall.ssmPutParameter (substituteTokens b.paramName region accountId)
    o.outputValue (b.paramType.getD "String") true

theorem processSsmOutputs_snd_none_iff (bs : List SsmParamOutput)
    (outs : List StackOutput) (r a u : String) :
    (processSsmOutputs bs outs r a u).2 = none ↔
      ∀ b ∈ bs, outs.filter (fun o => o.outputKey == b.stackOutput) ≠ [] := by
  induction bs with
  | nil => simp [processSsmOutputs]
  | cons b rest ih =>
    simp only [processSsmOutputs]
    by_cases hms : (outs.filter (fun o => o.outputKey == b.stackOutput)).isEmpty = true
    · have hemp : outs.filter (fun o => o.outputKey == b.stackOutput) = [] :=
        List.isEmpty_iff.mp hms
      rw [if_pos hms]
      constructor
      · intro h
        exact absurd h (by simp)
      · intro hall
        exact absurd hemp (hall b (List.mem_cons_self _ _))
    · have hne : outs.filter (fun o => o.outputKey == b.stackOutput) ≠ [] :=
        fun h => hms (List.isEmpty_iff.mpr h)
      rw [if_neg hms]
      constructor
      · intro h b2 hb2
        rcases List.mem_cons.mp hb2 with rfl | hb2
        · exact hne
        · exact ih.mp h b2 hb2
      · intro hall
        exact ih.mpr (fun b2 hb2 => hall b2 (List.mem_cons_of_mem _ hb2))

theorem processSsmOutputs_fst_of_all_match (bs : List SsmParamOutput)
    (outs : List StackOutput) (r a u : String)
    (h : ∀ b ∈ bs, outs.filter (fun o => o.outputKey == b.stackOutput) ≠ []) :
    (processSsmOutputs bs outs r a u).1 =
      bs.flatMap (fun b =>
        (outs.filter (fun o => o.outputKey == b.stackOutput)).map (putCallFor r a b)) := by
  induction bs with
  | nil => simp [processSsmOutputs]
  | cons b rest ih =>
    have hb := h b (List.mem_cons_self _ _)
    have hms : (outs.filter (fun o => o.outputKey == b.stackOutput)).isEmpty = false := by
      cases hx : (outs.filter (fun o => o.outputKey == b.stackOutput)).isEmpty
      · rfl
      · exact absurd (List.isEmpty_iff.mp hx) hb
    simp only [processSsmOutputs, hms, Bool.false_eq_true, if_false, List.flatMap_cons]
    rw [ih (fun b2 hb2 => h b2 (List.mem_cons_of_mem _ hb2))]
    rfl

theorem processSsmOutputs_fst_puts (bs : List SsmParamOutput)
    (outs : List StackOutput) (r a u : String) :
    ∀ c ∈ (processSsmOutputs bs outs r a u).1,
      ∃ b ∈ bs, ∃ o ∈ outs, c = putCallFor r a b o := by
  induction bs with
  | nil => simp [processSsmOutputs]
  | cons b rest ih =>
    intro c hc
    simp only [processSsmOutputs] at hc
    by_cases hms : (outs.filter (fun o => o.outputKey == b.stackOutput)).isEmpty = true
    · simp only [hms, if_true] at hc
      obtain ⟨o, ho, rfl⟩ := List.mem_map.mp hc
      exact ⟨b, List.mem_cons_self _ _, o, (List.mem_filter.mp ho).1, rfl⟩
    · simp only [hms, Bool.false_eq_true, if_false, List.mem_append] at hc
      rcases hc with hc | hc
      · obtain ⟨o, ho, rfl⟩ := List.mem_map.mp hc
        exact ⟨b, List.mem_cons_self _ _, o, (List.mem_filter.mp ho).1, rfl⟩
      · obtain ⟨b2, hb2, o, ho, rfl⟩ := ih c hc
        exact ⟨b2, List.mem_cons_of_mem _ hb2, o, ho, rfl⟩

theorem filter_key_length_le_one (outs : List StackOutput) (k : String)
    (h : (outs.map (fun o => o.outputKey)).Nodup) :
    (outs.filter (fun o => o.outputKey == k)).length ≤ 1 := by
  induction outs with
  | nil => simp
  | cons o rest ih =>
    simp only [List.map_cons] at h
    have h2 := List.nodup_cons.mp h
    by_cases ho : (o.outputKey == k) = true
    · have hok : o.outputKey = k := by simpa using ho
      have hrest : rest.filter (fun o2 => o2.outputKey == k) = [] := by
        rw [List.filter_eq_nil_iff]
        intro o2 ho2 ho2k
        exact h2.1 (List.mem_map.mpr ⟨o2, ho2, by rw [hok]; simpa using ho2k⟩)
      simp [List.filter_cons, ho, hrest]
    · simpa [List.filter_cons, ho] using ih h2.2

theorem processSsmOutputs_countP_eq_one (bs : List SsmParamOutput)
    (outs : List StackOutput) (r a u : String) (b : SsmParamOutput) (hb : b ∈ bs)
    (hall : ∀ b2 ∈ bs, outs.filter (fun o => o.outputKey == b2.stackOutput) ≠ [])
    (houts : (outs.map (fun o => o.outputKey)).Nodup)
    (hnames : (bs.map (fun b2 => substituteTokens b2.paramName r a)).Nodup) :
    (processSsmOutputs bs outs r a u).1.countP
      (fun c => c.isPutNamed (substituteTokens b.paramName r a)) = 1 := by
  induction bs with
  | nil => cases hb
  | cons bh rest ih =>
    have hbh := hall bh (List.mem_cons_self _ _)
    have hms : ¬ ((outs.filter (fun o => o.outputKey == bh.stackOutput)).isEmpty = true) :=
      fun hx => hbh (List.isEmpty_iff.mp hx)
    simp only [List.map_cons] at hnames
    have hnames2 := List.nodup_cons.mp hnames
    simp only [processSsmOutputs]
    rw [if_neg hms, List.countP_append]
    rcases List.mem_cons.mp hb with rfl | hbmem
    · have hcnt1 : List.countP (fun c => c.isPutNamed (substituteTokens b.paramName r a))
          ((outs.filter (fun o => o.outputKey == b.stackOutput)).map
            (fun o => ApiCall.ssmPutParameter (substituteTokens b.paramName r a)
              o.outputValue (b.paramType.getD "String") true)) =
          (outs.filter (fun o => o.outputKey == b.stackOutput)).length := by
        rw [← List.length_map (outs.filter (fun o => o.outputKey == b.stackOutput))
          (fun o => ApiCall.ssmPutParameter (substituteTokens b.paramName r a)
            o.outputValue (b.paramType.getD "String") true)]
        rw [List.countP_eq_length]
        intro c hc
        obtain ⟨o, ho, rfl⟩ := List.mem_map.mp hc
        simp [ApiCall.isPutNamed]
      have hcnt0 : (processSsmOutputs rest outs r a u).1.countP
          (fun c => c.isPutNamed (substituteTokens b.paramName r a)) = 0 := by
        rw [List.countP_eq_zero]
        intro c hc
        obtain ⟨b2, hb2, o, ho, rfl⟩ := processSsmOutputs_fst_puts rest outs r a u c hc
        simp only [putCallFor, ApiCall.isPutNamed]
        intro hx
        have heq : substituteTokens b2.paramName r a = substituteTokens b.paramName r a := by
          simpa using hx
        exact hnames2.1 (by rw [← heq]; exact List.mem_map.mpr ⟨b2, hb2, rfl⟩)
      have hlen1 : (outs.filter (fun o => o.outputKey == b.stackOutput)).length = 1 := by
        have hle := filter_key_length_le_one outs b.stackOutput houts
        have hge : 0 < (outs.filter (fun o => o.outputKey == b.stackOutput)).length :=
          List.length_pos.mpr hbh
        omega
      rw [hcnt1, hcnt0, hlen1]
    · have hcnt0 : List.countP (fun c => c.isPutNamed (substituteTokens b.paramName r a))
          ((outs.filter (fun o => o.outputKey == bh.stackOutput)).map
            (fun o => ApiCall.ssmPutParameter (substituteTokens bh.paramName r a)
              o.outputValue (bh.paramType.getD "String") true)) = 0 := by
        rw [List.countP_eq_zero]
        intro c hc
        obtain ⟨o, ho, rfl⟩ := List.mem_map.mp hc
        simp only [ApiCall.isPutNamed]
        intro hx
        have heq : substituteTokens bh.paramName r a = substituteTokens b.paramName r a := by
          simpa using hx
        exact hnames2.1 (by rw [heq]; exact List.mem_map.mpr ⟨b, hbmem, rfl⟩)
      rw [hcnt0,
        ih hbmem (fun b2 hb2 => hall b2 (List.mem_cons_of_mem _ hb2)) hnames2.2]

/-! Claim theorems. -/

/-- C10: for every response, `ListLaunchPathsTask.run` terminates by raising
the exception `Could not find a launch path`; the raise sits unconditionally
after the client block, so it is reached even when exactly one launch path
exists or a path named after the portfolio was found, in which case the
matching summary has already been written as the task's output. -/
theorem c10_list_launch_paths_always_raises (summaries : List LaunchPathSummary)
    (portfolio : String) :
    (listLaunchPathsRun summaries portfolio).2 = .error "Could not find a launch path" ∧
    (∀ s, summaries = [s] → (listLaunchPathsRun summaries portfolio).1 = [s]) ∧
    (∀ s, s ∈ summaries → summaries.length ≠ 1 → s.name = portfolio →
      s ∈ (listLaunchPathsRun summaries portfolio).1) := by
  refine ⟨?_, ?_, ?_⟩
  · match summaries with
    | [] => rfl
    | [s] => rfl
    | s1 :: s2 :: rest => rfl
  · intro s hs
    subst hs
    rfl
  · intro s hs hlen hname
    match summaries, hs with
    | [s1], hs =>
      exact absurd rfl hlen
    | [], hs => cases hs
    | s1 :: s2 :: rest, hs =>
      exact List.mem_filter.mpr ⟨hs, by simpa using hname⟩

/-- Concrete input for the C4 statements. -/
def c4Input : SpokeDeployInput :=
  { puppetAccountId := "222222222222", accountId := "111111111111",
    homeRegion := "eu-west-1", regions := ["eu-west-1", "eu-west-2"],
    shouldUseSns := false, shouldUseEventbridge := true,
    shouldForwardFailuresToOpscenter := false,
    newManifestContent := "manifest-body", codebuildBuildNumber := some "42",
    versionParamValue := "0.83.0", presignedUrl := "https-signed-url" }

/-- C4 (amended): `RunDeployInSpokeTask.run` uploads the reduced manifest to
the object store, generates a signed retrieval URL limited to 24 hours,
and triggers the remote build in the spoke account passing the URL and the
run-context environment as flat string key/value pairs; it then writes its
own output immediately after `start_build` returns — it does not wait for
the remote job to complete (no start-and-wait call is issued). -/
theorem c4_run_deploy_in_spoke (i : SpokeDeployInput) :
    (runDeployInSpokeRun i).calls =
      [ApiCall.s3PutObject ("sc-puppet-spoke-deploy-" ++ i.puppetAccountId)
          ((i.codebuildBuildNumber.getD "0") ++ ".yaml") i.newManifestContent,
       ApiCall.s3GeneratePresignedUrl ("sc-puppet-spoke-deploy-" ++ i.puppetAccountId)
          ((i.codebuildBuildNumber.getD "0") ++ ".yaml") 86400,
       ApiCall.ssmGetParameter "service-catalog-puppet-version",
       ApiCall.codebuildStartBuild EXECUTION_SPOKE_CODEBUILD_PROJECT_NAME
          (runDeployInSpokeEnv i i.presignedUrl i.versionParamValue)] ∧
    (∀ v ∈ runDeployInSpokeEnv i i.presignedUrl i.versionParamValue,
      v.vtype = "PLAINTEXT") ∧
    (⟨"MANIFEST_URL", i.presignedUrl, "PLAINTEXT"⟩ : EnvVar) ∈
      runDeployInSpokeEnv i i.presignedUrl i.versionParamValue ∧
    (runDeployInSpokeRun i).outputWritten = true ∧
    (∀ c ∈ (runDeployInSpokeRun i).calls, c.isStartBuildAndWait = false) := by
  refine ⟨rfl, ?_, ?_, rfl, ?_⟩
  · intro v hv
    simp only [runDeployInSpokeEnv, List.mem_cons, List.not_mem_nil, or_false] at hv
    rcases hv with rfl | rfl | rfl | rfl | rfl | rfl | rfl | rfl <;> rfl
  · simp [runDeployInSpokeEnv]
  · intro c hc
    simp only [runDeployInSpokeRun, List.mem_cons, List.not_mem_nil, or_false] at hc
    rcases hc with rfl | rfl | rfl | rfl <;> rfl

/-- C4 witness: the theorem applied at a concrete input — the manifest URL
variable is a flat string pair and the output is written. -/
theorem c4_witness :
    (⟨"MANIFEST_URL", "https-signed-url", "PLAINTEXT"⟩ : EnvVar).vtype = "PLAINTEXT" ∧
    (runDeployInSpokeRun c4Input).outputWritten = true := by
  have h := c4_run_deploy_in_spoke c4Input
  exact ⟨h.2.1 _ h.2.2.1, h.2.2.2.1⟩

/-- C4 counterexample: at a concrete input the run writes its output while
issuing a plain `start_build` and no start-and-wait call, so the claim that
the task blocks until the remote job completes (start-job-and-wait returning
a terminal status) before writing its output is false on the code. -/
theorem c4_counterexample :
    ((runDeployInSpokeRun c4Input).calls.any ApiCall.isStartBuildAndWait) = false ∧
    ((runDeployInSpokeRun c4Input).calls.any
      (fun c => match c with
        | ApiCall.codebuildStartBuild _ _ => true
        | _ => false)) = true ∧
    (runDeployInSpokeRun c4Input).outputWritten = true := by
  refine ⟨by decide, by decide, by decide⟩

/-- C9: evaluation of `DoTerminateProductTask.run` at the failing input.  A
launch already TERMINATED with one declared SSM output binding whose target
parameter name carries the region token: no second terminate call is issued
and the parameter-not-found raised by the delete is swallowed (the run still
succeeds), but the delete is issued for the raw `param_name`
`/scp/$\x7bAWS::Region\x7d/vpc-id`, whereas the provision-side put (same
binding, same region and account) wrote `/scp/eu-west-1/vpc-id` — the
parameter previously written for this item is never the one deleted. -/
theorem c9_terminate_behaviour_at_failing_input :
    (doTerminateProductRun
      { launchName := "L1", accountId := "111111111111", region := "eu-west-1",
        productId := "prod-1",
        ssmParamOutputs := [⟨"VpcIdOutput", "/scp/${AWS::Region}/vpc-id", none⟩],
        provisionedProducts := [⟨"L1", "pp-1", "pa-1", "TERMINATED"⟩],
        existingSsmParams := ["/scp/eu-west-1/vpc-id"] }).calls =
      [ApiCall.scanProvisionedProducts,
       ApiCall.ssmDeleteParameter "/scp/${AWS::Region}/vpc-id"] ∧
    (doTerminateProductRun
      { launchName := "L1", accountId := "111111111111", region := "eu-west-1",
        productId := "prod-1",
        ssmParamOutputs := [⟨"VpcIdOutput", "/scp/${AWS::Region}/vpc-id", none⟩],
        provisionedProducts := [⟨"L1", "pp-1", "pa-1", "TERMINATED"⟩],
        existingSsmParams := ["/scp/eu-west-1/vpc-id"] }).notFoundSwallowed =
      ["/scp/${AWS::Region}/vpc-id"] ∧
    (doTerminateProductRun
      { launchName := "L1", accountId := "111111111111", region := "eu-west-1",
        productId := "prod-1",
        ssmParamOutputs := [⟨"VpcIdOutput", "/scp/${AWS::Region}/vpc-id", none⟩],
        provisionedProducts := [⟨"L1", "pp-1", "pa-1", "TERMINATED"⟩],
        existingSsmParams := ["/scp/eu-west-1/vpc-id"] }).result = .ok (some "pp-1") ∧
    (processSsmOutputs [⟨"VpcIdOutput", "/scp/${AWS::Region}/vpc-id", none⟩]
        [⟨"VpcIdOutput", "vpc-123"⟩] "eu-west-1" "111111111111" "uid").1 =
      [ApiCall.ssmPutParameter "/scp/eu-west-1/vpc-id" "vpc-123" "String" true] ∧
    ("/scp/${AWS::Region}/vpc-id" : String) ≠ "/scp/eu-west-1/vpc-id" := by
  exact ⟨rfl, rfl, rfl, rfl, by decide⟩

/-- C2 counterexample: with every attempt failing with the transient storage
error the retry bound is exhausted, and yet the run does not fail — it
writes the sentinel `[None]` output, so the claim that the exhausted
transient error is escalated (the task fails) is false on the code. -/
theorem c2_counterexample :
    (doDescribeProvisioningParametersRun
      (fun _ => .clientErr "An error occurred (ClientError): S3 error: Access Denied")).attempts = 3 ∧
    (doDescribeProvisioningParametersRun
      (fun _ => .clientErr "An error occurred (ClientError): S3 error: Access Denied")).sleeps = 3 ∧
    (doDescribeProvisioningParametersRun
      (fun _ => .clientErr "An error occurred (ClientError): S3 error: Access Denied")).result =
      .ok [none] := by
  exact ⟨by decide, by decide, rfl⟩

theorem describeLoop_attempts_le (outcome : Nat → DescribeOutcome) :
    ∀ r a s, (describeLoop outcome r a s).attempts ≤ a + r := by
  intro r
  induction r with
  | zero =>
    intro a s
    simp [describeLoop]
  | succ n ih =>
    intro a s
    rw [describeLoop]
    cases ho : outcome a with
    | ok ps => simp
    | clientErr m =>
      by_cases ht : isTransientS3Error m = true
      · simp only [ht, if_true]
        have := ih (a + 1) (s + 1)
        omega
      · simp only [eq_false_of_ne_true ht, Bool.false_eq_true, if_false]
        simp
    | otherErr m => simp

/-- C2 (amended): `DoDescribeProvisioningParameters.run` wraps the remote
call in a bounded retry of 3 attempts; while every preceding attempt failed
with the transient `S3 error: Access Denied` client error, a non-transient
client error or any other exception at an attempt propagates immediately
(having slept only for the transient failures before it), a success writes
the described parameters, and when all 3 attempts fail transiently the bound
is exhausted and the task does not fail: it writes the sentinel `[None]`
output (the transient error is swallowed, not escalated). -/
theorem c2_describe_retry (outcome : Nat → DescribeOutcome) :
    (doDescribeProvisioningParametersRun outcome).attempts ≤ 3 ∧
    (∀ k m, k < 3 →
      (∀ j, j < k → ∃ m2, outcome j = .clientErr m2 ∧ isTransientS3Error m2 = true) →
      ((outcome k = .clientErr m ∧ isTransientS3Error m = false) ∨ outcome k = .otherErr m) →
      doDescribeProvisioningParametersRun outcome = ⟨k + 1, k, .error m⟩) ∧
    (∀ k ps, k < 3 →
      (∀ j, j < k → ∃ m2, outcome j = .clientErr m2 ∧ isTransientS3Error m2 = true) →
      outcome k = .ok ps →
      doDescribeProvisioningParametersRun outcome = ⟨k + 1, k, .ok (ps.map some)⟩) ∧
    ((∀ j, j < 3 → ∃ m2, outcome j = .clientErr m2 ∧ isTransientS3Error m2 = true) →
      doDescribeProvisioningParametersRun outcome = ⟨3, 3, .ok [none]⟩) := by
  refine ⟨by simpa using describeLoop_attempts_le outcome 3 0 0, ?_, ?_, ?_⟩
  · intro k m hk hprev hbad
    have hk3 : k = 0 ∨ k = 1 ∨ k = 2 := by omega
    rcases hk3 with rfl | rfl | rfl
    · rcases hbad with ⟨h0, ht⟩ | h0
      · simp [doDescribeProvisioningParametersRun, describeLoop, h0, ht]
      · simp [doDescribeProvisioningParametersRun, describeLoop, h0]
    · obtain ⟨m0, h0, ht0⟩ := hprev 0 (by omega)
      rcases hbad with ⟨h1, ht⟩ | h1
      · simp [doDescribeProvisioningParametersRun, describeLoop, h0, ht0, h1, ht]
      · simp [doDescribeProvisioningParametersRun, describeLoop, h0, ht0, h1]
    · obtain ⟨m0, h0, ht0⟩ := hprev 0 (by omega)
      obtain ⟨m1, h1, ht1⟩ := hprev 1 (by omega)
      rcases hbad with ⟨h2, ht⟩ | h2
      · simp [doDescribeProvisioningParametersRun, describeLoop, h0, ht0, h1, ht1, h2, ht]
      · simp [doDescribeProvisioningParametersRun, describeLoop, h0, ht0, h1, ht1, h2]
  · intro k ps hk hprev hok
    have hk3 : k = 0 ∨ k = 1 ∨ k = 2 := by omega
    rcases hk3 with rfl | rfl | rfl
    · simp [doDescribeProvisioningParametersRun, describeLoop, hok]
    · obtain ⟨m0, h0, ht0⟩ := hprev 0 (by omega)
      simp [doDescribeProvisioningParametersRun, describeLoop, h0, ht0, hok]
    · obtain ⟨m0, h0, ht0⟩ := hprev 0 (by omega)
      obtain ⟨m1, h1, ht1⟩ := hprev 1 (by omega)
      simp [doDescribeProvisioningParametersRun, describeLoop, h0, ht0, h1, ht1, hok]
  · intro hall
    obtain ⟨m0, h0, ht0⟩ := hall 0 (by omega)
    obtain ⟨m1, h1, ht1⟩ := hall 1 (by omega)
    obtain ⟨m2, h2, ht2⟩ := hall 2 (by omega)
    simp [doDescribeProvisioningParametersRun, describeLoop, h0, ht0, h1, ht1, h2, ht2]

/-- C2 witness: the amended theorem applied at a concrete outcome function —
a non-transient client error at the first attempt propagates immediately. -/
theorem c2_witness :
    doDescribeProvisioningParametersRun
      (fun _ => .clientErr "AccessDeniedException: not the storage race") =
      ⟨1, 0, .error "AccessDeniedException: not the storage race"⟩ := by
  exact (c2_describe_retry
      (fun _ => .clientErr "AccessDeniedException: not the storage race")).2.1
    0 "AccessDeniedException: not the storage race" (by omega)
    (fun j hj => absurd hj (by omega))
    (Or.inl ⟨rfl, by decide⟩)

/-- Depends-on types recognized by `LaunchForSpokeExecutionTask.requires`. -/
def supportedDependsOnType (t : String) : Bool :=
  t == LAUNCH || t == SPOKE_LOCAL_PORTFOLIO || t == ASSERTION ||
    t == CODE_BUILD_RUN || t == LAMBDA_INVOCATION

theorem spokeRequiresStep_ne_ok_of_mismatch (manifest : List (String × String))
    (acc : List TaskRef) (d : DependsOn)
    (hsup : supportedDependsOnType d.dtype = true) (hne : d.affinity ≠ d.dtype) :
    ∀ acc2, spokeRequiresStep manifest acc d ≠ .ok acc2 := by
  intro acc2 hstep
  have hsup2 : d.dtype = LAUNCH ∨ d.dtype = SPOKE_LOCAL_PORTFOLIO ∨ d.dtype = ASSERTION ∨
      d.dtype = CODE_BUILD_RUN ∨ d.dtype = LAMBDA_INVOCATION := by
    simpa [supportedDependsOnType, or_assoc] using hsup
  rcases hsup2 with h | h | h | h | h <;>
    (rw [h] at hne
     simp only [LAUNCH, SPOKE_LOCAL_PORTFOLIO, ASSERTION, CODE_BUILD_RUN,
       LAMBDA_INVOCATION] at hne
     simp [spokeRequiresStep, h, hne, LAUNCH, SPOKE_LOCAL_PORTFOLIO, ASSERTION,
       CODE_BUILD_RUN, LAMBDA_INVOCATION] at hstep)

theorem spokeRequiresLoop_error_of_mismatch (manifest : List (String × String))
    (deps : List DependsOn)
    (hbad : ∃ d ∈ deps, supportedDependsOnType d.dtype = true ∧ d.affinity ≠ d.dtype) :
    ∀ acc, ∃ e, spokeRequiresLoop manifest deps acc = .error e := by
  induction deps with
  | nil =>
    rcases hbad with ⟨d, hd, _⟩
    cases hd
  | cons d rest ih =>
    intro acc
    rw [spokeRequiresLoop]
    cases hstep : spokeRequiresStep manifest acc d with
    | error e => exact ⟨e, rfl⟩
    | ok acc2 =>
      rcases hbad with ⟨d2, hd2, hsup, hne⟩
      rcases List.mem_cons.mp hd2 with rfl | hmem
      · exact absurd hstep (spokeRequiresStep_ne_ok_of_mismatch _ _ _ hsup hne acc2)
      · exact ih ⟨d2, hmem, hsup, hne⟩ acc2

/-- C5 (amended): only spoke-execution graph construction validates
dependency affinity: `LaunchForSpokeExecutionTask.requires` raises a
configuration error whenever any `depends_on` edge of a supported type has
an affinity different from its type — in particular an edge with type
`launch` and affinity `region` is rejected there at graph-construction time.
`LaunchForRegionTask.requires` performs no such validation (see the
counterexample theorem). -/
theorem c5_affinity_validation :
    (∀ (manifest : List (String × String)) (deps : List DependsOn),
      (∃ d ∈ deps, supportedDependsOnType d.dtype = true ∧ d.affinity ≠ d.dtype) →
      ∃ e, launchForSpokeExecutionRequires manifest deps = .error e) ∧
    launchForSpokeExecutionRequires [("other-launch", "hub")]
        [⟨"launch", "region", "other-launch"⟩] =
      .error "Could can only depend on a launch using affinity launch when using spoke execution mode" := by
  constructor
  · intro manifest deps hbad
    exact spokeRequiresLoop_error_of_mismatch manifest deps hbad []
  · rfl

/-- C5 witness: the amended theorem applied at a concrete manifest and edge
list containing a code-build-run edge with affinity launch. -/
theorem c5_witness :
    ∃ e, launchForSpokeExecutionRequires [("dep-launch", "spoke")]
      [⟨"code-build-run", "launch", "cbr-1"⟩] = .error e := by
  exact (c5_affinity_validation).1 [("dep-launch", "spoke")]
    [⟨"code-build-run", "launch", "cbr-1"⟩]
    ⟨⟨"code-build-run", "launch", "cbr-1"⟩, by simp, by decide, by decide⟩

/-- C5 counterexample: the claim quantifies over graph construction as a
whole, but a depends_on edge with type `launch` and affinity `region` is not
rejected by the hub-mode `LaunchForRegionTask.requires`: the method is total
(it can raise on no edge) and at this concrete input it silently ignores the
edge, returning the normal requirement sets. -/
theorem c5_counterexample :
    launchForRegionTaskRequires [] [⟨"launch", "region", "other-launch"⟩] "eu-west-1" =
      ([], []) := by
  rfl

/-- Concrete input for the C8 statements: no live provisioned product. -/
def c8FreshInput : DryRunInput :=
  { launchName := "L1", accountId := "111111111111", region := "eu-west-1",
    version := "v2", versionId := "pa-2", productId := "prod-1",
    artifactParams := [], allParams := [], provisionedProducts := [],
    stackParameters := [], currentVersionName := "v1",
    currentVersionActive := true }

/-- Concrete input for the C8 witness: live artifact and parameters match. -/
def c8MatchInput : DryRunInput :=
  { launchName := "L1", accountId := "111111111111", region := "eu-west-1",
    version := "v2", versionId := "pa-2", productId := "prod-1",
    artifactParams := [⟨"Foo", some "bar"⟩], allParams := [],
    provisionedProducts := [⟨"L1", "pp-1", "pa-2", "AVAILABLE"⟩],
    stackParameters := [("Foo", some "bar")], currentVersionName := "v2",
    currentVersionActive := true }

/-- C8 (amended): the dry-run classifier issues only read calls on every
path; the absence of a live resource with a provisioning-artifact id is
classified as CHANGE with the current version shown as the placeholder `-`
(not the empty string) and notes `New provisioning`; a matching artifact id
with equal parameters is NO_CHANGE; a matching artifact id with differing
parameters and a differing artifact id are both CHANGE, with distinguishing
notes. -/
theorem c8_dry_run_classification (i : DryRunInput) :
    ((provisionProductDryRunRun i).calls.all (fun c => !c.isMutating)) = true ∧
    ((dryRunScan i.provisionedProducts i.launchName).artifactId = none →
      (provisionProductDryRunRun i).written =
        some ⟨"-", i.version, CHANGE, "NOT_PROVISIONED", "N/A", "New provisioning"⟩) ∧
    (∀ ppid, (dryRunScan i.provisionedProducts i.launchName).artifactId = some i.versionId →
      (dryRunScan i.provisionedProducts i.launchName).ppId = some ppid →
      dictEq i.stackParameters (paramsToUse i.artifactParams i.allParams) = true →
      (provisionProductDryRunRun i).written =
        some ⟨i.version, i.version, NO_CHANGE,
          (dryRunScan i.provisionedProducts i.launchName).status,
          pyStr i.currentVersionActive, "Versions and params are the same"⟩) ∧
    (∀ ppid, (dryRunScan i.provisionedProducts i.launchName).artifactId = some i.versionId →
      (dryRunScan i.provisionedProducts i.launchName).ppId = some ppid →
      dictEq i.stackParameters (paramsToUse i.artifactParams i.allParams) = false →
      (provisionProductDryRunRun i).written =
        some ⟨i.version, i.version, CHANGE,
          (dryRunScan i.provisionedProducts i.launchName).status,
          pyStr i.currentVersionActive,
          "Versions are the same but the params are different"⟩) ∧
    (∀ paid, (dryRunScan i.provisionedProducts i.launchName).artifactId = some paid →
      paid ≠ i.versionId →
      (provisionProductDryRunRun i).written =
        some ⟨i.currentVersionName, i.version, CHANGE,
          (dryRunScan i.provisionedProducts i.launchName).status,
          pyStr i.currentVersionActive, "Version change"⟩) := by
  refine ⟨?_, ?_, ?_, ?_, ?_⟩
  · simp only [provisionProductDryRunRun]
    split
    · rfl
    · split
      · split
        · split
          · rfl
          · rfl
        · rfl
      · rfl
  · intro hart
    simp only [provisionProductDryRunRun, hart]
  · intro ppid hart hpp hd
    simp only [provisionProductDryRunRun, hart, hpp, hd, beq_self_eq_true, if_true]
  · intro ppid hart hpp hd
    simp only [provisionProductDryRunRun, hart, hpp, hd, beq_self_eq_true, if_true,
      Bool.false_eq_true, if_false]
  · intro paid hart hne
    have hv : (paid == i.versionId) = false := by simpa using hne
    simp only [provisionProductDryRunRun, hart, hv, Bool.false_eq_true, if_false]

/-- C8 witness: the amended theorem applied at a concrete input whose live
artifact id and parameters match the desired state — NO_CHANGE. -/
theorem c8_witness :
    (provisionProductDryRunRun c8MatchInput).written =
      some ⟨"v2", "v2", NO_CHANGE, "AVAILABLE", "True",
        "Versions and params are the same"⟩ := by
  exact (c8_dry_run_classification c8MatchInput).2.2.1 "pp-1" rfl rfl rfl

/-- C8 counterexample: with no live resource the dry run writes the current
version as the placeholder `-`, not the empty string claimed. -/
theorem c8_counterexample :
    ((provisionProductDryRunRun c8FreshInput).written.map (fun d => d.currentVersion)) =
      some "-" ∧
    ((provisionProductDryRunRun c8FreshInput).written.map (fun d => d.effect)) =
      some "CHANGE" ∧
    (some "-" : Option String) ≠ some "" := by
  exact ⟨rfl, rfl, by decide⟩

theorem terminateIfStatusIsNotAvailable_calls (pps : List PPRecord) (n : String) :
    ∀ c ∈ (terminateIfStatusIsNotAvailable pps n).2,
      c.mutParams = none ∧ c.isSsmPut = false ∧ c.isProvisioningMutation = c.isMutating := by
  intro c hc
  rw [terminateIfStatusIsNotAvailable] at hc
  split at hc
  · simp only [List.mem_cons, List.not_mem_nil, or_false] at hc
    subst hc
    exact ⟨rfl, rfl, rfl⟩
  · split at hc
    · simp only [List.mem_cons, List.not_mem_nil, or_false] at hc
      subst hc
      exact ⟨rfl, rfl, rfl⟩
    · simp only [List.mem_cons, List.not_mem_nil, or_false] at hc
      rcases hc with rfl | rfl
      · exact ⟨rfl, rfl, rfl⟩
      · exact ⟨rfl, rfl, rfl⟩

theorem compareCallsOf_calls (i : ProvisionInput) :
    ∀ c ∈ compareCallsOf i, c.mutParams = none ∧ c.isMutating = false := by
  intro c hc
  rw [compareCallsOf] at hc
  split at hc
  · simp only [List.mem_cons, List.not_mem_nil, or_false] at hc
    subst hc
    exact ⟨rfl, rfl⟩
  · simp at hc

theorem provisionMutationSection_mutParams (i : ProvisionInput) (need : Bool)
    (pp : Option String) (ptu : List (String × Option String)) :
    ∀ c ∈ (provisionMutationSection i need pp ptu).1,
      c.mutParams = none ∨ c.mutParams = some ptu := by
  intro c hc
  simp only [provisionMutationSection] at hc
  split at hc
  · split at hc
    · split at hc
      · split at hc
        · simp only [List.cons_append, List.nil_append, List.mem_cons,
            List.not_mem_nil, or_false] at hc
          rcases hc with rfl | rfl | rfl
          · exact Or.inl rfl
          · exact Or.inl rfl
          · exact Or.inr rfl
        · simp only [List.cons_append, List.nil_append, List.mem_cons,
            List.not_mem_nil, or_false] at hc
          rcases hc with rfl | rfl
          · exact Or.inl rfl
          · exact Or.inr rfl
      · simp only [List.mem_cons, List.not_mem_nil, or_false] at hc
        subst hc
        exact Or.inl rfl
    · simp only [List.mem_cons, List.not_mem_nil, or_false] at hc
      subst hc
      exact Or.inr rfl
  · simp at hc

theorem provisionPrefix_mutParams (i : ProvisionInput) (c : ApiCall)
    (hc : c ∈ (terminateIfStatusIsNotAvailable i.provisionedProducts i.launchName).2 ++
      compareCallsOf i ++
      (provisionMutationSection i (needToProvisionOf i)
        (terminateIfStatusIsNotAvailable i.provisionedProducts i.launchName).1.ppId
        (paramsToUse i.artifactParams i.allParams)).1) :
    c.mutParams = none ∨ c.mutParams = some (paramsToUse i.artifactParams i.allParams) := by
  simp only [List.mem_append] at hc
  rcases hc with (hc | hc) | hc
  · exact Or.inl (terminateIfStatusIsNotAvailable_calls _ _ c hc).1
  · exact Or.inl (compareCallsOf_calls i c hc).1
  · exact provisionMutationSection_mutParams i _ _ _ c hc

theorem provisionProductRun_mutParams (i : ProvisionInput) :
    ∀ c ∈ (provisionProductRun i).calls,
      c.mutParams = none ∨ c.mutParams = some (paramsToUse i.artifactParams i.allParams) := by
  intro c hc
  simp only [provisionProductRun] at hc
  split at hc
  · exact provisionPrefix_mutParams i c hc
  · split at hc
    · split at hc
      · simp only [List.append_assoc] at hc
        rw [← List.append_assoc, ← List.append_assoc] at hc
        rcases List.mem_append.mp hc with hc | hc
        · exact provisionPrefix_mutParams i c hc
        · rcases List.mem_append.mp hc with hc | hc
          · simp only [List.mem_cons, List.not_mem_nil, or_false] at hc
            subst hc
            exact Or.inl rfl
          · obtain ⟨b, _, o, _, rfl⟩ :=
              processSsmOutputs_fst_puts i.ssmParamOutputs i.stackOutputs
                i.region i.accountId i.uid c hc
            exact Or.inl rfl
      · simp only [List.append_assoc] at hc
        rw [← List.append_assoc, ← List.append_assoc] at hc
        rcases List.mem_append.mp hc with hc | hc
        · exact provisionPrefix_mutParams i c hc
        · rcases List.mem_append.mp hc with hc | hc
          · simp only [List.mem_cons, List.not_mem_nil, or_false] at hc
            subst hc
            exact Or.inl rfl
          · obtain ⟨b, _, o, _, rfl⟩ :=
              processSsmOutputs_fst_puts i.ssmParamOutputs i.stackOutputs
                i.region i.accountId i.uid c hc
            exact Or.inl rfl
    · exact provisionPrefix_mutParams i c hc

theorem provisionProductRun_compared (i : ProvisionInput) :
    (provisionProductRun i).compared = comparedOf i := by
  simp only [provisionProductRun]
  split
  · rfl
  · split
    · split
      · rfl
      · rfl
    · rfl

/-- C6: the resolved parameter map contains exactly the keys declared by the
provisioning artifact — a supplied key not declared is dropped, and a
declared key takes the supplied value when present, else the artifact's
default — and the identical resolved map (`paramsToUse`) is both what the
comparison against the live stack parameters uses and what every
provision / update / plan call carries, so the compared map and the sent map
cannot diverge within one run. -/
theorem c6_parameter_resolution :
    (∀ (ap : List ProvArtParam) (sup : List (String × String)) (k : String),
      (paramsToUse ap sup).any (fun q => q.1 == k) =
        ap.any (fun p => p.parameterKey == k)) ∧
    (∀ (ap : List ProvArtParam) (sup : List (String × String)) (k : String),
      (∀ p ∈ ap, p.parameterKey ≠ k) → lookupD (paramsToUse ap sup) k = none) ∧
    (∀ (ap : List ProvArtParam) (sup : List (String × String)) (p : ProvArtParam),
      (ap.map (fun p2 => p2.parameterKey)).Nodup → p ∈ ap →
      lookupD (paramsToUse ap sup) p.parameterKey =
        some ((lookupD sup p.parameterKey) <|> p.defaultValue)) ∧
    (∀ (i : ProvisionInput) (m : List (String × Option String)),
      (provisionProductRun i).compared = some m →
      m = paramsToUse i.artifactParams i.allParams) ∧
    (∀ (i : ProvisionInput), ∀ c ∈ (provisionProductRun i).calls,
      c.mutParams = none ∨
        c.mutParams = some (paramsToUse i.artifactParams i.allParams)) := by
  refine ⟨paramsToUse_anyKey, paramsToUse_lookup_undeclared,
    paramsToUse_lookup_declared, ?_, provisionProductRun_mutParams⟩
  intro i m hm
  rw [provisionProductRun_compared] at hm
  rw [comparedOf] at hm
  split at hm
  · exact (Option.some_inj.mp hm).symm
  · cases hm

/-- C6 witness: the combined theorem applied at concrete inputs — the
declared key `Foo` resolves to the supplied value, the undeclared supplied
key `Bar` is dropped, and at a concrete run every parameter-carrying call
sends exactly the resolved map. -/
theorem c6_witness :
    lookupD (paramsToUse [⟨"Foo", some "dflt"⟩] [("Foo", "new"), ("Bar", "x")]) "Foo" =
      some (some "new") ∧
    lookupD (paramsToUse [⟨"Foo", some "dflt"⟩] [("Foo", "new"), ("Bar", "x")]) "Bar" =
      none := by
  constructor
  · exact (c6_parameter_resolution).2.2.1 [⟨"Foo", some "dflt"⟩]
      [("Foo", "new"), ("Bar", "x")] ⟨"Foo", some "dflt"⟩ (by simp) (by simp)
  · exact (c6_parameter_resolution).2.1 [⟨"Foo", some "dflt"⟩]
      [("Foo", "new"), ("Bar", "x")] "Bar" (by simp)

theorem provisionProductRun_need (i : ProvisionInput) :
    (provisionProductRun i).needToProvision = needToProvisionOf i := by
  simp only [provisionProductRun]
  split
  · rfl
  · split
    · split
      · rfl
      · rfl
    · rfl

/-- Concrete C1 input in spoke execution mode: live artifact and parameters
match the desired state. -/
def c1SpokeInput : ProvisionInput :=
  { launchName := "L1", accountId := "111111111111", region := "eu-west-1",
    portfolio := "port", version := "v2", puppetAccountId := "222222222222",
    execution := "spoke", uid := "uid1", shouldUseProductPlans := false,
    ssmParamOutputs := [], productId := "prod-1", versionId := "pa-2",
    artifactParams := [⟨"Foo", some "bar"⟩], allParams := [],
    provisionedProducts := [⟨"L1", "pp-1", "pa-2", "AVAILABLE"⟩],
    stackParameters := [("Foo", some "bar")], stackStatus := "CREATE_COMPLETE",
    stackOutputs := [⟨"Out", "value1"⟩], pathId := "path-1",
    newProvisionedProductId := "pp-new" }

/-- Concrete C1 input in hub execution mode with one declared output
binding: live artifact and parameters match the desired state. -/
def c1HubInput : ProvisionInput :=
  { launchName := "L1", accountId := "111111111111", region := "eu-west-1",
    portfolio := "port", version := "v2", puppetAccountId := "222222222222",
    execution := "hub", uid := "uid1", shouldUseProductPlans := false,
    ssmParamOutputs := [⟨"Out", "/scp/param", none⟩], productId := "prod-1",
    versionId := "pa-2", artifactParams := [⟨"Foo", some "bar"⟩], allParams := [],
    provisionedProducts := [⟨"L1", "pp-1", "pa-2", "AVAILABLE"⟩],
    stackParameters := [("Foo", some "bar")], stackStatus := "CREATE_COMPLETE",
    stackOutputs := [⟨"Out", "value1"⟩], pathId := "path-1",
    newProvisionedProductId := "pp-new" }

/-- C1 (amended): when the freshly queried live provisioning-artifact id
equals the desired version id, a live provisioned resource exists with
status AVAILABLE (not TAINTED), and the live stack parameters equal the
resolved map, `ProvisionProductTask.run` classifies NO_CHANGE
(`need_to_provision` is false) and issues no provision, update, plan or
terminate call; the only mutating calls it can still issue are the hub-mode
SSM output puts — with a non-hub execution mode, or with no declared output
bindings, it issues zero mutating calls. -/
theorem c1_no_change_idempotence (i : ProvisionInput) (r : PPRecord)
    (hfind : i.provisionedProducts.find? (fun q => q.name == i.launchName) = some r)
    (hst : r.status = "AVAILABLE")
    (hart : r.artifactId = i.versionId)
    (heq : dictEq i.stackParameters (paramsToUse i.artifactParams i.allParams) = true) :
    (provisionProductRun i).needToProvision = false ∧
    (∀ c ∈ (provisionProductRun i).calls, c.isProvisioningMutation = false) ∧
    (∀ c ∈ (provisionProductRun i).calls, c.isMutating = true → c.isSsmPut = true) ∧
    (i.execution ≠ EXECUTION_MODE_HUB →
      ∀ c ∈ (provisionProductRun i).calls, c.isMutating = false) ∧
    (i.ssmParamOutputs = [] →
      ∀ c ∈ (provisionProductRun i).calls, c.isMutating = false) := by
  have hls : terminateIfStatusIsNotAvailable i.provisionedProducts i.launchName =
      (⟨some r.id, some r.artifactId, r.status⟩, [ApiCall.scanProvisionedProducts]) := by
    simp only [terminateIfStatusIsNotAvailable, hfind]
    rw [if_pos (by simp [hst])]
  have hneed : needToProvisionOf i = false := by
    rw [needToProvisionOf, liveStateOf, hls]
    simp [hart, heq, hst]
  have hmut : provisionMutationSection i (needToProvisionOf i) (some r.id)
      (paramsToUse i.artifactParams i.allParams) = ([], [], .ok (some r.id)) := by
    rw [hneed, provisionMutationSection]
    simp
  have hcmp : compareCallsOf i =
      [ApiCall.describeStacksParameters s!"SC-{i.accountId}-{r.id}"] := by
    rw [compareCallsOf, comparedOf, liveStateOf, hls]
    simp [hart]
  have hcalls : (provisionProductRun i).calls =
      ApiCall.scanProvisionedProducts ::
        ApiCall.describeStacksParameters s!"SC-{i.accountId}-{r.id}" ::
        (if (i.execution == EXECUTION_MODE_HUB) = true then
          ApiCall.describeStacks s!"SC-{i.accountId}-{r.id}" ::
            (processSsmOutputs i.ssmParamOutputs i.stackOutputs i.region
              i.accountId i.uid).1
        else []) := by
    simp only [provisionProductRun, hls, hmut, hcmp]
    by_cases hh : (i.execution == EXECUTION_MODE_HUB) = true
    · simp only [hh, if_true]
      split <;> simp
    · simp only [hh, Bool.false_eq_true, if_false]
      simp
  refine ⟨by rw [provisionProductRun_need]; exact hneed, ?_, ?_, ?_, ?_⟩
  · intro c hc
    rw [hcalls] at hc
    simp only [List.mem_cons] at hc
    rcases hc with rfl | rfl | hc
    · rfl
    · rfl
    · by_cases hh : (i.execution == EXECUTION_MODE_HUB) = true
      · rw [if_pos hh] at hc
        simp only [List.mem_cons] at hc
        rcases hc with rfl | hc
        · rfl
        · obtain ⟨b, _, o, _, rfl⟩ := processSsmOutputs_fst_puts _ _ _ _ _ c hc
          rfl
      · rw [if_neg hh] at hc
        simp at hc
  · intro c hc
    rw [hcalls] at hc
    simp only [List.mem_cons] at hc
    rcases hc with rfl | rfl | hc
    · intro h; simp [ApiCall.isMutating] at h
    · intro h; simp [ApiCall.isMutating] at h
    · by_cases hh : (i.execution == EXECUTION_MODE_HUB) = true
      · rw [if_pos hh] at hc
        simp only [List.mem_cons] at hc
        rcases hc with rfl | hc
        · intro h; simp [ApiCall.isMutating] at h
        · obtain ⟨b, _, o, _, rfl⟩ := processSsmOutputs_fst_puts _ _ _ _ _ c hc
          intro _; rfl
      · rw [if_neg hh] at hc
        simp at hc
  · intro hne c hc
    have hh : (i.execution == EXECUTION_MODE_HUB) = false := by simpa using hne
    rw [hcalls] at hc
    rw [hh] at hc
    simp only [Bool.false_eq_true, if_false, List.mem_cons, List.not_mem_nil,
      or_false] at hc
    rcases hc with rfl | rfl <;> rfl
  · intro hb c hc
    rw [hcalls, hb] at hc
    by_cases hh : (i.execution == EXECUTION_MODE_HUB) = true
    · rw [if_pos hh] at hc
      simp only [processSsmOutputs, List.mem_cons, List.not_mem_nil, or_false] at hc
      rcases hc with rfl | rfl | rfl <;> rfl
    · rw [if_neg hh] at hc
      simp only [List.mem_cons, List.not_mem_nil, or_false] at hc
      rcases hc with rfl | rfl <;> rfl

/-- C1 witness: the amended theorem applied at the concrete spoke-mode
input — NO_CHANGE and zero mutating calls. -/
theorem c1_witness :
    (provisionProductRun c1SpokeInput).needToProvision = false ∧
    (provisionProductRun c1SpokeInput).calls.filter ApiCall.isMutating = [] := by
  have h := c1_no_change_idempotence c1SpokeInput ⟨"L1", "pp-1", "pa-2", "AVAILABLE"⟩
    rfl rfl rfl (by decide)
  refine ⟨h.1, List.filter_eq_nil_iff.mpr ?_⟩
  intro c hc
  simp [h.2.2.2.1 (by decide) c hc]

/-- C1 counterexample: at the concrete hub-mode input every hypothesis of
the claim holds — the freshly queried artifact id equals the desired version
id, the live resource exists, the live stack parameters equal the resolved
map, and the run classifies NO_CHANGE — and yet one mutating client call is
issued: the parameter-store put for the declared output binding.  The claim
that such a run issues zero mutating calls (no parameter-store put) is false
on the code. -/
theorem c1_counterexample :
    c1HubInput.provisionedProducts.find?
      (fun q => q.name == c1HubInput.launchName) =
      some ⟨"L1", "pp-1", "pa-2", "AVAILABLE"⟩ ∧
    ("pa-2" : String) = c1HubInput.versionId ∧
    dictEq c1HubInput.stackParameters
      (paramsToUse c1HubInput.artifactParams c1HubInput.allParams) = true ∧
    (provisionProductRun c1HubInput).needToProvision = false ∧
    (provisionProductRun c1HubInput).calls.filter ApiCall.isMutating =
      [ApiCall.ssmPutParameter "/scp/param" "value1" "String" true] ∧
    (provisionProductRun c1HubInput).result = .ok (some "pp-1") := by
  exact ⟨rfl, rfl, by decide, by decide, by decide, rfl⟩

theorem provisionProductRun_warnings (i : ProvisionInput) :
    (provisionProductRun i).warnings =
      (provisionMutationSection i (needToProvisionOf i)
        (terminateIfStatusIsNotAvailable i.provisionedProducts i.launchName).1.ppId
        (paramsToUse i.artifactParams i.allParams)).2.1 := by
  simp only [provisionProductRun]
  split
  · rfl
  · split
    · split
      · rfl
      · rfl
    · rfl

theorem provisionProductRun_prefix_mem (i : ProvisionInput) (c : ApiCall)
    (hc : c ∈ (terminateIfStatusIsNotAvailable i.provisionedProducts i.launchName).2 ++
      compareCallsOf i ++
      (provisionMutationSection i (needToProvisionOf i)
        (terminateIfStatusIsNotAvailable i.provisionedProducts i.launchName).1.ppId
        (paramsToUse i.artifactParams i.allParams)).1) :
    c ∈ (provisionProductRun i).calls := by
  simp only [provisionProductRun]
  split
  · exact hc
  · split
    · split
      · exact List.mem_append_left _ (List.mem_append_left _ hc)
      · exact List.mem_append_left _ (List.mem_append_left _ hc)
    · exact hc

theorem provisionProductRun_error_case (i : ProvisionInput) (e : String)
    (he : (provisionMutationSection i (needToProvisionOf i)
        (terminateIfStatusIsNotAvailable i.provisionedProducts i.launchName).1.ppId
        (paramsToUse i.artifactParams i.allParams)).2.2 = Except.error e) :
    (provisionProductRun i).calls =
      (terminateIfStatusIsNotAvailable i.provisionedProducts i.launchName).2 ++
        compareCallsOf i ++
        (provisionMutationSection i (needToProvisionOf i)
          (terminateIfStatusIsNotAvailable i.provisionedProducts i.launchName).1.ppId
          (paramsToUse i.artifactParams i.allParams)).1 ∧
    (provisionProductRun i).result = Except.error e := by
  simp [provisionProductRun, he]

theorem isProvisioningMutation_isMutating (c : ApiCall)
    (h : c.isProvisioningMutation = true) : c.isMutating = true := by
  cases c <;> simp_all [ApiCall.isProvisioningMutation, ApiCall.isMutating]

/-- C7: when a live provisioned resource exists and an update is needed,
`ProvisionProductTask.run` mutates only if the stack status is one of the
healthy terminal states UPDATE_COMPLETE, CREATE_COMPLETE or
UPDATE_ROLLBACK_COMPLETE; any other stack status raises a fatal error before
any mutating call is issued; UPDATE_ROLLBACK_COMPLETE proceeds (a
provisioning mutation is issued) but the warning is emitted. -/
theorem c7_stack_status_gate (i : ProvisionInput) (r : PPRecord)
    (hfind : i.provisionedProducts.find? (fun q => q.name == i.launchName) = some r)
    (hst : r.status = "AVAILABLE" ∨ r.status = "TAINTED")
    (hneed : needToProvisionOf i = true) :
    (healthyStackStatuses.contains i.stackStatus = false →
      (provisionProductRun i).result =
        Except.error s!"[{i.uid}] current cfn stack_status is {i.stackStatus}" ∧
      ∀ c ∈ (provisionProductRun i).calls, c.isMutating = false) ∧
    (i.stackStatus = "UPDATE_ROLLBACK_COMPLETE" →
      (provisionProductRun i).warnings =
        [s!"[{i.uid}] SC-{i.accountId}-{r.id} has a status of {i.stackStatus}.  This may need manual resolution."] ∧
      ∃ c ∈ (provisionProductRun i).calls, c.isProvisioningMutation = true) ∧
    (∀ c ∈ (provisionProductRun i).calls, c.isProvisioningMutation = true →
      healthyStackStatuses.contains i.stackStatus = true) := by
  have hls : terminateIfStatusIsNotAvailable i.provisionedProducts i.launchName =
      (⟨some r.id, some r.artifactId, r.status⟩, [ApiCall.scanProvisionedProducts]) := by
    simp only [terminateIfStatusIsNotAvailable, hfind]
    rw [if_pos (by rcases hst with h | h <;> simp [h])]
  have hOnUnhealthy : healthyStackStatuses.contains i.stackStatus = false →
      (provisionProductRun i).calls =
        [ApiCall.scanProvisionedProducts] ++ compareCallsOf i ++
          [ApiCall.describeStacks s!"SC-{i.accountId}-{r.id}"] ∧
      (provisionProductRun i).result =
        Except.error s!"[{i.uid}] current cfn stack_status is {i.stackStatus}" := by
    intro hun
    have hmutA : provisionMutationSection i (needToProvisionOf i) (some r.id)
        (paramsToUse i.artifactParams i.allParams) =
        ([ApiCall.describeStacks s!"SC-{i.accountId}-{r.id}"], [],
          Except.error s!"[{i.uid}] current cfn stack_status is {i.stackStatus}") := by
      have hun2 : i.stackStatus ∉ healthyStackStatuses := by simpa using hun
      rw [hneed, provisionMutationSection]
      simp [hun2]
    have he := provisionProductRun_error_case i
      s!"[{i.uid}] current cfn stack_status is {i.stackStatus}"
      (by rw [hls]; rw [hmutA])
    refine ⟨?_, he.2⟩
    rw [he.1, hls, hmutA]
  refine ⟨?_, ?_, ?_⟩
  · intro hun
    have hkey := hOnUnhealthy hun
    refine ⟨hkey.2, ?_⟩
    intro c hc
    rw [hkey.1] at hc
    rcases List.mem_append.mp hc with hc | hc
    · rcases List.mem_append.mp hc with hc | hc
      · simp only [List.mem_cons, List.not_mem_nil, or_false] at hc
        subst hc
        rfl
      · exact (compareCallsOf_calls i c hc).2
    · simp only [List.mem_cons, List.not_mem_nil, or_false] at hc
      subst hc
      rfl
  · intro hroll
    have hw : (i.stackStatus == "UPDATE_ROLLBACK_COMPLETE") = true := by
      simp [hroll]
    have hcontains : healthyStackStatuses.contains i.stackStatus = true := by
      rw [hroll]
      decide
    by_cases hp : i.shouldUseProductPlans = true
    · have hmutB : provisionMutationSection i (needToProvisionOf i) (some r.id)
          (paramsToUse i.artifactParams i.allParams) =
          ([ApiCall.describeStacks s!"SC-{i.accountId}-{r.id}",
            ApiCall.listLaunchPaths i.productId,
            ApiCall.provisionProductWithPlan i.pathId
              (paramsToUse i.artifactParams i.allParams)],
           [s!"[{i.uid}] SC-{i.accountId}-{r.id} has a status of {i.stackStatus}.  This may need manual resolution."],
           Except.ok (some i.newProvisionedProductId)) := by
        have hmem : i.stackStatus ∈ healthyStackStatuses := by simpa using hcontains
        rw [hneed, provisionMutationSection]
        simp [hmem, hw, hp]
      constructor
      · rw [provisionProductRun_warnings, hls, hmutB]
      · refine ⟨ApiCall.provisionProductWithPlan i.pathId
          (paramsToUse i.artifactParams i.allParams), ?_, rfl⟩
        apply provisionProductRun_prefix_mem
        rw [hls, hmutB]
        simp
    · have hmutB : provisionMutationSection i (needToProvisionOf i) (some r.id)
          (paramsToUse i.artifactParams i.allParams) =
          ([ApiCall.describeStacks s!"SC-{i.accountId}-{r.id}",
            ApiCall.updateProvisionedProduct
              (paramsToUse i.artifactParams i.allParams)],
           [s!"[{i.uid}] SC-{i.accountId}-{r.id} has a status of {i.stackStatus}.  This may need manual resolution."],
           Except.ok (some i.newProvisionedProductId)) := by
        have hmem : i.stackStatus ∈ healthyStackStatuses := by simpa using hcontains
        rw [hneed, provisionMutationSection]
        simp [hmem, hw, hp]
      constructor
      · rw [provisionProductRun_warnings, hls, hmutB]
      · refine ⟨ApiCall.updateProvisionedProduct
          (paramsToUse i.artifactParams i.allParams), ?_, rfl⟩
        apply provisionProductRun_prefix_mem
        rw [hls, hmutB]
        simp
  · by_cases hhealthy : healthyStackStatuses.contains i.stackStatus = true
    · intro c hc hpc
      exact hhealthy
    · have hun : healthyStackStatuses.contains i.stackStatus = false :=
        eq_false_of_ne_true hhealthy
      have hkey := hOnUnhealthy hun
      intro c hc hpc
      rw [hkey.1] at hc
      rcases List.mem_append.mp hc with hc | hc
      · rcases List.mem_append.mp hc with hc | hc
        · simp only [List.mem_cons, List.not_mem_nil, or_false] at hc
          subst hc
          simp [ApiCall.isProvisioningMutation] at hpc
        · have := (compareCallsOf_calls i c hc).2
          rw [isProvisioningMutation_isMutating c hpc] at this
          cases this
      · simp only [List.mem_cons, List.not_mem_nil, or_false] at hc
        subst hc
        simp [ApiCall.isProvisioningMutation] at hpc

/-- Concrete C7 input: live artifact differs (an update is due) and the
stack is in UPDATE_ROLLBACK_COMPLETE. -/
def c7Input : ProvisionInput :=
  { launchName := "L1", accountId := "111111111111", region := "eu-west-1",
    portfolio := "port", version := "v2", puppetAccountId := "222222222222",
    execution := "spoke", uid := "uid1", shouldUseProductPlans := false,
    ssmParamOutputs := [], productId := "prod-1", versionId := "pa-2",
    artifactParams := [], allParams := [],
    provisionedProducts := [⟨"L1", "pp-1", "pa-1", "AVAILABLE"⟩],
    stackParameters := [], stackStatus := "UPDATE_ROLLBACK_COMPLETE",
    stackOutputs := [], pathId := "path-1",
    newProvisionedProductId := "pp-new" }

/-- C7 witness: the theorem applied at the concrete rollback-complete
input — the run proceeds with a warning. -/
theorem c7_witness :
    (provisionProductRun c7Input).warnings =
      ["[uid1] SC-111111111111-pp-1 has a status of UPDATE_ROLLBACK_COMPLETE.  This may need manual resolution."] ∧
    ∃ c ∈ (provisionProductRun c7Input).calls, c.isProvisioningMutation = true := by
  exact (c7_stack_status_gate c7Input ⟨"L1", "pp-1", "pa-1", "AVAILABLE"⟩
    rfl (Or.inl rfl) (by decide)).2.1 rfl

/-- Concrete C3 input: hub execution, fresh provision, one declared output
binding whose key matches a stack output. -/
def c3Input : ProvisionInput :=
  { launchName := "L1", accountId := "111111111111", region := "eu-west-1",
    portfolio := "port", version := "v2", puppetAccountId := "222222222222",
    execution := "hub", uid := "uid1", shouldUseProductPlans := false,
    ssmParamOutputs := [⟨"VpcIdOutput", "/scp/${AWS::Region}/param", none⟩],
    productId := "prod-1", versionId := "pa-2", artifactParams := [],
    allParams := [], provisionedProducts := [], stackParameters := [],
    stackStatus := "CREATE_COMPLETE", stackOutputs := [⟨"VpcIdOutput", "vpc-123"⟩],
    pathId := "path-1", newProvisionedProductId := "pp-new" }

/-- C3: in hub execution mode after a successful provision, for every
declared SSM output binding: when no stack output key equals the binding's
`stack_output` the run raises (the binding is not skipped); when every
binding has a matching key the run succeeds and, per binding, exactly one
parameter-store put is issued whose name is the binding's target parameter
name with the region and account tokens substituted, and every put is issued
with overwrite enabled. -/
theorem c3_output_binding_contract (i : ProvisionInput)
    (hhub : i.execution = EXECUTION_MODE_HUB)
    (hfresh : i.provisionedProducts.find? (fun q => q.name == i.launchName) = none)
    (houts : (i.stackOutputs.map (fun o => o.outputKey)).Nodup)
    (hnames : (i.ssmParamOutputs.map
      (fun b => substituteTokens b.paramName i.region i.accountId)).Nodup) :
    ((∃ b ∈ i.ssmParamOutputs,
        i.stackOutputs.filter (fun o => o.outputKey == b.stackOutput) = []) →
      ∃ e, (provisionProductRun i).result = Except.error e) ∧
    ((∀ b ∈ i.ssmParamOutputs,
        i.stackOutputs.filter (fun o => o.outputKey == b.stackOutput) ≠ []) →
      (provisionProductRun i).result = Except.ok (some i.newProvisionedProductId) ∧
      (∀ b ∈ i.ssmParamOutputs,
        (provisionProductRun i).calls.countP
          (fun c => c.isPutNamed (substituteTokens b.paramName i.region i.accountId)) = 1) ∧
      (∀ c ∈ (provisionProductRun i).calls, c.isSsmPut = true → c.putOverwrite = true)) := by
  have hls : terminateIfStatusIsNotAvailable i.provisionedProducts i.launchName =
      (⟨none, none, "NOT_PROVISIONED"⟩, [ApiCall.scanProvisionedProducts]) := by
    simp only [terminateIfStatusIsNotAvailable, hfresh]
  have hneed : needToProvisionOf i = true := by
    rw [needToProvisionOf, liveStateOf, hls]
    simp
  have hcmp : compareCallsOf i = [] := by
    rw [compareCallsOf, comparedOf, liveStateOf, hls]
    simp
  have hmutC : provisionMutationSection i (needToProvisionOf i) none
      (paramsToUse i.artifactParams i.allParams) =
      ([ApiCall.provisionProduct (paramsToUse i.artifactParams i.allParams)], [],
        Except.ok (some i.newProvisionedProductId)) := by
    rw [hneed, provisionMutationSection]
    simp
  have hhubeq : (i.execution == EXECUTION_MODE_HUB) = true := by simp [hhub]
  have hcalls : (provisionProductRun i).calls =
      ApiCall.scanProvisionedProducts ::
        ApiCall.provisionProduct (paramsToUse i.artifactParams i.allParams) ::
        ApiCall.describeStacks s!"SC-{i.accountId}-{i.newProvisionedProductId}" ::
        (processSsmOutputs i.ssmParamOutputs i.stackOutputs i.region
          i.accountId i.uid).1 := by
    simp only [provisionProductRun, hls, hmutC, hcmp, hhubeq, if_true]
    split <;> simp
  have hressome : ∀ e, (processSsmOutputs i.ssmParamOutputs i.stackOutputs i.region
      i.accountId i.uid).2 = some e →
      (provisionProductRun i).result = Except.error e := by
    intro e he
    simp only [provisionProductRun, hls, hmutC, hcmp, hhubeq, if_true, he]
  have hresnone : (processSsmOutputs i.ssmParamOutputs i.stackOutputs i.region
      i.accountId i.uid).2 = none →
      (provisionProductRun i).result = Except.ok (some i.newProvisionedProductId) := by
    intro he
    simp only [provisionProductRun, hls, hmutC, hcmp, hhubeq, if_true, he]
  constructor
  · intro hbad
    cases hsnd : (processSsmOutputs i.ssmParamOutputs i.stackOutputs i.region
        i.accountId i.uid).2 with
    | some e => exact ⟨e, hressome e hsnd⟩
    | none =>
      obtain ⟨b, hb, hemp⟩ := hbad
      exact absurd hemp
        ((processSsmOutputs_snd_none_iff i.ssmParamOutputs i.stackOutputs i.region
          i.accountId i.uid).mp hsnd b hb)
  · intro hall
    have hsnd : (processSsmOutputs i.ssmParamOutputs i.stackOutputs i.region
        i.accountId i.uid).2 = none :=
      (processSsmOutputs_snd_none_iff i.ssmParamOutputs i.stackOutputs i.region
        i.accountId i.uid).mpr hall
    refine ⟨hresnone hsnd, ?_, ?_⟩
    · intro b hb
      rw [hcalls]
      rw [List.countP_cons, List.countP_cons, List.countP_cons]
      simp only [ApiCall.isPutNamed, if_false, Nat.add_zero]
      exact processSsmOutputs_countP_eq_one i.ssmParamOutputs i.stackOutputs
        i.region i.accountId i.uid b hb hall houts hnames
    · intro c hc hput
      rw [hcalls] at hc
      simp only [List.mem_cons] at hc
      rcases hc with rfl | rfl | rfl | hc
      · simp [ApiCall.isSsmPut] at hput
      · simp [ApiCall.isSsmPut] at hput
      · simp [ApiCall.isSsmPut] at hput
      · obtain ⟨b2, _, o, _, rfl⟩ := processSsmOutputs_fst_puts i.ssmParamOutputs
          i.stackOutputs i.region i.accountId i.uid c hc
        rfl

/-- C3 witness: the theorem applied at the concrete hub-mode fresh-provision
input whose single binding matches a stack output: the run succeeds and
exactly one put is issued under the token-substituted name. -/
theorem c3_witness :
    (provisionProductRun c3Input).result = Except.ok (some "pp-new") ∧
    (provisionProductRun c3Input).calls.countP
      (fun c => c.isPutNamed "/scp/eu-west-1/param") = 1 := by
  have h := (c3_output_binding_contract c3Input rfl rfl (by decide) (by decide)).2
    (by intro b hb; simp only [c3Input, List.mem_cons, List.not_mem_nil, or_false] at hb; subst hb; decide)
  exact ⟨h.1, h.2.1 ⟨"VpcIdOutput", "/scp/${AWS::Region}/param", none⟩ (by simp [c3Input])⟩

/-- C10 witness: with two launch paths of which the first is named after the
portfolio, the matching summary is written and the exception is still raised. -/
theorem c10_witness :
    (⟨"lp-1", "my-portfolio"⟩ : LaunchPathSummary) ∈
      (listLaunchPathsRun [⟨"lp-1", "my-portfolio"⟩, ⟨"lp-2", "other"⟩] "my-portfolio").1 ∧
    (listLaunchPathsRun [⟨"lp-1", "my-portfolio"⟩, ⟨"lp-2", "other"⟩] "my-portfolio").2 =
      .error "Could not find a launch path" := by
  refine ⟨?_, ?_⟩
  · exact (c10_list_launch_paths_always_raises
      [⟨"lp-1", "my-portfolio"⟩, ⟨"lp-2", "other"⟩] "my-portfolio").2.2
      ⟨"lp-1", "my-portfolio"⟩ (by simp) (by simp) rfl
  · exact (c10_list_launch_paths_always_raises
      [⟨"lp-1", "my-portfolio"⟩, ⟨"lp-2", "other"⟩] "my-portfolio").1

end ScPuppet
